import Mathlib

/-!
Kimera-VIO: a shallow embedding of `src/Mesher.h` and of the function `main` of
`examples/stereoVIOKitti.cpp`.

The class `VIO::Mesher` keeps a table of 3D points (`mapPoints3d_`), a map from
landmark ids to rows of that table (`lmkIdToMapPointId_`), the number of rows
(`points3D_count_`) and a flat polygon list (`polygonsMesh_`).

Modelling conventions.

* `cv::Mat` with one column is a `List` of its rows; `push_back` appends at the end.
* `std::unordered_map<LandmarkId, int>` is an association list with unique keys:
  `find` returns the value stored under a key, `insert` adds a pair only when the key
  is absent (the semantics of `std::unordered_map::insert`).
* `int` and `LandmarkId` values are `Int`.  The only arithmetic on them is
  `++points3D_count_`; it is modelled without wrap-around, i.e. for tables of fewer
  than `2^31` rows, which is also the range of `cv::Mat::rows`.
* `float` and `double` values are finite and modelled by `ℚ`; comparisons are exact.
  The narrowing cast `float(double)` and the conversion of `int` to `float` are
  parameters.
* A thrown C++ exception is a value of `Except`; a member function that may throw after
  it has changed the object returns the object it leaves behind together with the
  outcome.
* Code that is not part of `Mesher.h` (the OpenCV Delaunay primitive, the reverse pixel
  lookup of `Frame`, the casts to `float`) is collected in the structure `Lib`, together
  with two facts about `float`: the coordinates that the primitive returns are `float`
  values, and no `float` lies from an `int` up to its conversion.  Every result holds for
  all values of `Lib`; `Lib.binary32` is the instance with the binary32 conversion.
* The driver `main` is a function of how its three activities end (the data-source spin,
  `shutdownWhenFinished` and `spinViz`); threads and timing are not modelled.
-/

namespace VIO

/-! ## Data -/

/-- Landmark identifiers (`LandmarkId`), `-1` meaning "no landmark". -/
abbrev LandmarkId := Int

/-- Pixel coordinates, `cv::Point2f`. -/
structure Point2f where
  x : ℚ
  y : ℚ
deriving DecidableEq

/-- A 2D triangle `(x0, y0, x1, y1, x2, y2)`, `cv::Vec6f`. -/
structure Vec6f where
  v0 : ℚ
  v1 : ℚ
  v2 : ℚ
  v3 : ℚ
  v4 : ℚ
  v5 : ℚ
deriving DecidableEq

/-- A 3D point with `double` coordinates, `gtsam::Point3`. -/
structure Point3 where
  x : ℚ
  y : ℚ
  z : ℚ
deriving DecidableEq

/-- A 3D point with `float` coordinates, `cv::Point3f`. -/
structure Point3f where
  x : ℚ
  y : ℚ
  z : ℚ
deriving DecidableEq

/-- Image size, `cv::Size`. -/
structure Size where
  width : Int
  height : Int
deriving DecidableEq

/-- Axis-aligned rectangle, `cv::Rect2f`. -/
structure Rect2f where
  x : ℚ
  y : ℚ
  width : ℚ
  height : ℚ
deriving DecidableEq

/-- The containment test `cv::Rect_::contains`: inclusive on the left and top edge,
exclusive on the right and bottom edge. -/
def Rect2f.contains (r : Rect2f) (pt : Point2f) : Bool :=
  decide (r.x ≤ pt.x) && decide (pt.x < r.x + r.width) &&
    decide (r.y ≤ pt.y) && decide (pt.y < r.y + r.height)

/-- The part of `Frame` that `Mesher` reads: the size of the image `img_` and the two
parallel sequences `keypoints_` and `landmarks_`. -/
structure Frame where
  img_ : Size
  keypoints_ : List Point2f
  landmarks_ : List LandmarkId
deriving DecidableEq

/-- The planar subdivision `cv::Subdiv2D`: its bounding rectangle and the points
inserted so far, in insertion order. -/
structure Subdiv2D where
  rect : Rect2f
  points : List Point2f
deriving DecidableEq

/-- The call `subdiv.insert(pt)`. -/
def Subdiv2D.insert (subdiv : Subdiv2D) (pt : Point2f) : Subdiv2D :=
  { subdiv with points := subdiv.points ++ [pt] }

/-- Exceptions thrown by the code. -/
inductive Exception where
  | runtime_error (what : String)
deriving DecidableEq

/-- The exception of the sanity check of `CreateMesh2D`. -/
def wrongDimension : Exception :=
  Exception.runtime_error "mesher: wrong dimension for the landmarks"

/-- Functions used by `Mesher.h` and defined elsewhere, with two facts about the type
`float`: the entries of a `cv::Vec6f` are `float` values, and the conversion of an `int`
gives a nearest `float`, so that no `float` lies from the `int` up to its conversion. -/
structure Lib where
  /-- The cast `float(d)` of a `double`. -/
  toFloat : ℚ → ℚ
  /-- The conversion of an `int` to `float`. -/
  intToFloat : Int → ℚ
  /-- The values of the type `float`. -/
  isFloat : ℚ → Prop
  /-- The triangle list of `cv::Subdiv2D::getTriangleList`. -/
  getTriangleList : Subdiv2D → List Vec6f
  /-- The member `Frame::findLmkIdFromPixel`. -/
  findLmkIdFromPixel : Frame → Point2f → LandmarkId
  /-- A `float` below the conversion of an `int` is below the `int`. -/
  intToFloat_nearest : ∀ (n : Int) (x : ℚ), isFloat x → x < intToFloat n → x < (n : ℚ)
  /-- The coordinates of the triangles of the primitive are `float` values. -/
  getTriangleList_isFloat : ∀ (subdiv : Subdiv2D) (t : Vec6f), t ∈ getTriangleList subdiv →
    isFloat t.v0 ∧ isFloat t.v1 ∧ isFloat t.v2 ∧ isFloat t.v3 ∧ isFloat t.v4 ∧ isFloat t.v5

/-- Modelled from the spec: `Frame::findLmkIdFromPixel`, whose body is in `Frame.h`.
The landmark id of the first keypoint with exactly the given pixel coordinates, and the
sentinel `-1` when no keypoint matches. -/
def Frame.findLmkIdFromPixel (frame : Frame) (px : Point2f) : LandmarkId :=
  match (frame.keypoints_.zip frame.landmarks_).find? (fun kl => decide (kl.1 = px)) with
  | some kl => kl.2
  | none => -1

/-! ## The map from landmark ids to rows -/

/-- The type `Mesher::LandmarkIdToMapPointId`. -/
abbrev LandmarkIdToMapPointId := List (LandmarkId × Int)

/-- The lookup `find`: `none` stands for `end()`. -/
def LandmarkIdToMapPointId.find : LandmarkIdToMapPointId → LandmarkId → Option Int
  | [], _ => none
  | (k, v) :: rest, lmk_id =>
    if k = lmk_id then some v else LandmarkIdToMapPointId.find rest lmk_id

/-- The call `insert(std::make_pair(k, v))`: no effect when the key is present. -/
def LandmarkIdToMapPointId.insert (m : LandmarkIdToMapPointId) (kv : LandmarkId × Int) :
    LandmarkIdToMapPointId :=
  match LandmarkIdToMapPointId.find m kv.1 with
  | some _ => m
  | none => m ++ [kv]

/-! ## The class `Mesher` -/

/-- The data members of `Mesher`. -/
structure Mesher where
  mapPoints3d_ : List Point3f
  polygonsMesh_ : List Int
  lmkIdToMapPointId_ : LandmarkIdToMapPointId
  points3D_count_ : Int
deriving DecidableEq

/-- The constructor `Mesher()`. -/
def Mesher.new : Mesher :=
  { mapPoints3d_ := [], polygonsMesh_ := [], lmkIdToMapPointId_ := [], points3D_count_ := 0 }

/-- The rectangle `rect(0, 0, size.width, size.height)` of `CreateMesh2D`: the `int`
sides of the image are converted to `float`. -/
def CreateMesh2D.rect (L : Lib) (frame : Frame) : Rect2f :=
  let size := frame.img_
  { x := 0, y := 0, width := L.intToFloat size.width, height := L.intToFloat size.height }

/-- The first part of `CreateMesh2D` (its lines 52 to 68): the sanity check, then the
subdivision with the valid keypoints inserted. -/
def CreateMesh2D.subdiv (L : Lib) (frame : Frame) : Except Exception Subdiv2D :=
  if frame.landmarks_.length ≠ frame.keypoints_.length then
    Except.error wrongDimension
  else
    let rect := CreateMesh2D.rect L frame
    Except.ok
      ((List.range frame.keypoints_.length).foldl
        (fun subdiv i =>
          if frame.landmarks_.getD i (-1) ≠ -1 ∧
              rect.contains (frame.keypoints_.getD i ⟨0, 0⟩) = true then
            subdiv.insert (frame.keypoints_.getD i ⟨0, 0⟩)
          else subdiv)
        { rect := rect, points := [] })

/-- The test of line 83: the three vertices of `t` lie in `rect`. -/
def CreateMesh2D.inside (rect : Rect2f) (t : Vec6f) : Bool :=
  rect.contains ⟨t.v0, t.v1⟩ && rect.contains ⟨t.v2, t.v3⟩ && rect.contains ⟨t.v4, t.v5⟩

/-- The static member `Mesher::CreateMesh2D`. -/
def CreateMesh2D (L : Lib) (frame : Frame) : Except Exception (List Vec6f) :=
  match CreateMesh2D.subdiv L frame with
  | Except.error e => Except.error e
  | Except.ok subdiv =>
    let rect := CreateMesh2D.rect L frame
    let triangulation2DwithExtraTriangles := L.getTriangleList subdiv
    Except.ok
      (triangulation2DwithExtraTriangles.foldl
        (fun triangulation2D t =>
          if CreateMesh2D.inside rect t = true then triangulation2D ++ [t]
          else triangulation2D)
        [])

/-- The body of the loop of `createMesh3d_MapPointId` for one 2D triangle. -/
def createMesh3d_MapPointId.body (L : Lib) (lmkIdToMapPointId_ : LandmarkIdToMapPointId)
    (frame : Frame) (polygon : List Int) (t : Vec6f) : List Int :=
  let id_pt1 := L.findLmkIdFromPixel frame ⟨t.v0, t.v1⟩
  let id_pt2 := L.findLmkIdFromPixel frame ⟨t.v2, t.v3⟩
  let id_pt3 := L.findLmkIdFromPixel frame ⟨t.v4, t.v5⟩
  match LandmarkIdToMapPointId.find lmkIdToMapPointId_ id_pt1,
      LandmarkIdToMapPointId.find lmkIdToMapPointId_ id_pt2,
      LandmarkIdToMapPointId.find lmkIdToMapPointId_ id_pt3 with
  | some row1, some row2, some row3 => polygon ++ [3] ++ [row1] ++ [row2] ++ [row3]
  | _, _, _ => polygon

/-- The member `Mesher::createMesh3d_MapPointId` (the line it prints is left out). -/
def Mesher.createMesh3d_MapPointId (L : Lib) (self : Mesher) (frame : Frame) :
    Except Exception (List Int) :=
  match CreateMesh2D L frame with
  | Except.error e => Except.error e
  | Except.ok triangulation2D =>
    Except.ok
      (triangulation2D.foldl (createMesh3d_MapPointId.body L self.lmkIdToMapPointId_ frame) [])

/-- The write `data[row_id] = p` into the point table.  A row outside the table is
undefined behaviour in the source; here it changes nothing. -/
def setRow (mapPoints3d_ : List Point3f) (row_id : Int) (p : Point3f) : List Point3f :=
  if 0 ≤ row_id then mapPoints3d_.set row_id.toNat p else mapPoints3d_

/-- The point `(float(p.x()), float(p.y()), float(p.z()))`. -/
def Lib.toPoint3f (L : Lib) (point_i : Point3) : Point3f :=
  { x := L.toFloat point_i.x, y := L.toFloat point_i.y, z := L.toFloat point_i.z }

/-- The body of the loop of `updateMap3D` for one observation. -/
def updateMap3D.body (L : Lib) (self : Mesher) (obs : LandmarkId × Point3) : Mesher :=
  let lmk_id := obs.1
  let point_i := obs.2
  match LandmarkIdToMapPointId.find self.lmkIdToMapPointId_ lmk_id with
  | none =>
    { self with
      mapPoints3d_ := self.mapPoints3d_ ++ [L.toPoint3f point_i]
      lmkIdToMapPointId_ :=
        LandmarkIdToMapPointId.insert self.lmkIdToMapPointId_ (lmk_id, self.points3D_count_)
      points3D_count_ := self.points3D_count_ + 1 }
  | some row_id =>
    { self with mapPoints3d_ := setRow self.mapPoints3d_ row_id (L.toPoint3f point_i) }

/-- The member `Mesher::updateMap3D`. -/
def Mesher.updateMap3D (L : Lib) (self : Mesher) (pointsWithId : List (LandmarkId × Point3)) :
    Mesher :=
  pointsWithId.foldl (updateMap3D.body L) self

/-- The member `Mesher::updateMesh3D`: the object after the call, and whether the call
returned or threw. -/
def Mesher.updateMesh3D (L : Lib) (self : Mesher) (pointsWithId : List (LandmarkId × Point3))
    (frame : Frame) : Mesher × Except Exception Unit :=
  let self1 := self.updateMap3D L pointsWithId
  match self1.createMesh3d_MapPointId L frame with
  | Except.error e => (self1, Except.error e)
  | Except.ok polygon =>
    ({ self1 with polygonsMesh_ := self1.polygonsMesh_ ++ polygon }, Except.ok ())

/-! ## Sequences of calls -/

/-- A call of one of the two mutating members. -/
inductive Call where
  | updateMap3D (pointsWithId : List (LandmarkId × Point3))
  | updateMesh3D (pointsWithId : List (LandmarkId × Point3)) (frame : Frame)

/-- The object after one call (also when the call threw and the caller went on). -/
def Call.apply (L : Lib) (self : Mesher) : Call → Mesher
  | Call.updateMap3D pointsWithId => self.updateMap3D L pointsWithId
  | Call.updateMesh3D pointsWithId frame => (self.updateMesh3D L pointsWithId frame).1

/-- The object after a sequence of calls. -/
def run (L : Lib) (self : Mesher) (calls : List Call) : Mesher :=
  calls.foldl (Call.apply L) self

/-! ## The driver `examples/stereoVIOKitti.cpp` -/

/-- The two values that `main` returns. -/
inductive ExitStatus where
  | EXIT_SUCCESS
  | EXIT_FAILURE
deriving DecidableEq

/-- How a function called by the driver ends: it returns a value or it throws. -/
inductive Outcome (α : Type) where
  | returned (value : α)
  | threw

/-- The function `main` from the call of `spinViz` on (lines 47 to 62), as a function of
how the three activities end: `spinViz` on the calling thread, then `handle.get()` for
`KittiDataProvider::spin`, then `handle_pipeline.get()` for
`Pipeline::shutdownWhenFinished`.  The value of `spinViz()` and the value of
`handle_pipeline.get()` are discarded by the source, so their types are arbitrary.  An
exception leaves `main` without a returned status (`none`).  The timing log written when
`is_pipeline_successful` holds is left out. -/
def main {V P : Type} (spinViz : Outcome V) (spin : Outcome Bool)
    (shutdownWhenFinished : Outcome P) : Option ExitStatus :=
  match spinViz with
  | Outcome.threw => none
  | Outcome.returned _ =>
    match spin with
    | Outcome.threw => none
    | Outcome.returned is_pipeline_successful =>
      match shutdownWhenFinished with
      | Outcome.threw => none
      | Outcome.returned _ =>
        some (if is_pipeline_successful = true then ExitStatus.EXIT_SUCCESS
          else ExitStatus.EXIT_FAILURE)

/-! ## Vocabulary of the properties -/

/-- The keys of a map. -/
def LandmarkIdToMapPointId.keys (m : LandmarkIdToMapPointId) : List LandmarkId :=
  m.map Prod.fst

/-- The map has pairwise distinct keys, its values are the rows `0, 1, ..., N-1` of the
table in insertion order, and the counter is the number `N` of rows. -/
structure Mesher.Consistent (m : Mesher) : Prop where
  keys_nodup : (LandmarkIdToMapPointId.keys m.lmkIdToMapPointId_).Nodup
  rows : m.lmkIdToMapPointId_.map Prod.snd =
    (List.range m.mapPoints3d_.length).map (fun i : Nat => (i : Int))
  count : m.points3D_count_ = (m.mapPoints3d_.length : Int)

/-- The states reached from the constructor by calls of `updateMap3D` and `updateMesh3D`. -/
def Reachable (L : Lib) (m : Mesher) : Prop :=
  ∃ calls : List Call, m = run L Mesher.new calls

/-- The elements of a list, each kept at its first occurrence only. -/
def firstOccurrences : List LandmarkId → List LandmarkId
  | [] => []
  | a :: l => a :: (firstOccurrences l).filter (fun b => decide (b ≠ a))

/-- The landmark ids of a batch that are not keys of the map, each once, in the order of
their first occurrence in the batch. -/
def newLandmarks (m : LandmarkIdToMapPointId) (pointsWithId : List (LandmarkId × Point3)) :
    List LandmarkId :=
  firstOccurrences
    ((pointsWithId.map Prod.fst).filter
      (fun id => decide (LandmarkIdToMapPointId.find m id = none)))

/-- The pairs that give the ids `ids` the consecutive rows `c, c+1, ...`. -/
def assignRows : Int → List LandmarkId → LandmarkIdToMapPointId
  | _, [] => []
  | c, id :: ids => (id, c) :: assignRows (c + 1) ids

/-- The point of the last observation of `id` in a batch, if `id` is observed at all. -/
def lastObservation (pointsWithId : List (LandmarkId × Point3)) (id : LandmarkId) :
    Option Point3 :=
  ((pointsWithId.filter (fun o => decide (o.1 = id))).getLast?).map Prod.snd

/-- The row stored under a key (the call `at`); `-1` for a landmark that is not a key. -/
def LandmarkIdToMapPointId.row (m : LandmarkIdToMapPointId) (lmk_id : LandmarkId) : Int :=
  (LandmarkIdToMapPointId.find m lmk_id).getD (-1)

/-- The three landmark ids recovered for a 2D triangle are all keys of the map. -/
def liftable (L : Lib) (m : LandmarkIdToMapPointId) (frame : Frame) (t : Vec6f) : Bool :=
  decide (L.findLmkIdFromPixel frame ⟨t.v0, t.v1⟩ ∈ LandmarkIdToMapPointId.keys m) &&
    decide (L.findLmkIdFromPixel frame ⟨t.v2, t.v3⟩ ∈ LandmarkIdToMapPointId.keys m) &&
    decide (L.findLmkIdFromPixel frame ⟨t.v4, t.v5⟩ ∈ LandmarkIdToMapPointId.keys m)

/-- The record `[3, row(id1), row(id2), row(id3)]` of a 2D triangle. -/
def record (L : Lib) (m : LandmarkIdToMapPointId) (frame : Frame) (t : Vec6f) : List Int :=
  [3, LandmarkIdToMapPointId.row m (L.findLmkIdFromPixel frame ⟨t.v0, t.v1⟩),
    LandmarkIdToMapPointId.row m (L.findLmkIdFromPixel frame ⟨t.v2, t.v3⟩),
    LandmarkIdToMapPointId.row m (L.findLmkIdFromPixel frame ⟨t.v4, t.v5⟩)]

/-- The flat encoding of a list of triangles: the record `3, i, j, k` for each. -/
def encodeTriangles : List (Int × Int × Int) → List Int
  | [] => []
  | (i, j, k) :: rest => 3 :: i :: j :: k :: encodeTriangles rest

/-- The list `polygons` is a concatenation of records `3, i, j, k` whose indices `i`, `j`,
`k` are rows of a table with `n` rows. -/
def WellFormedPolygons (n : Nat) (polygons : List Int) : Prop :=
  ∃ triangles : List (Int × Int × Int),
    polygons = encodeTriangles triangles ∧
      ∀ t ∈ triangles,
        (0 ≤ t.1 ∧ t.1 < (n : Int)) ∧ (0 ≤ t.2.1 ∧ t.2.1 < (n : Int)) ∧
          (0 ≤ t.2.2 ∧ t.2.2 < (n : Int))

/-- The observation batch passed to a call. -/
def Call.pointsWithId : Call → List (LandmarkId × Point3)
  | Call.updateMap3D pointsWithId => pointsWithId
  | Call.updateMesh3D pointsWithId _ => pointsWithId

/-- The reverse pixel lookup yields the sentinel `-1` for some vertex of the triangle. -/
def unresolved (L : Lib) (frame : Frame) (t : Vec6f) : Bool :=
  decide (L.findLmkIdFromPixel frame ⟨t.v0, t.v1⟩ = -1) ||
    decide (L.findLmkIdFromPixel frame ⟨t.v2, t.v3⟩ = -1) ||
    decide (L.findLmkIdFromPixel frame ⟨t.v4, t.v5⟩ = -1)

/-- The keypoints of a frame whose landmark id is not `-1` and whose pixel lies in the
image rectangle, in keypoint order. -/
def validKeypoints (L : Lib) (frame : Frame) : List Point2f :=
  ((frame.keypoints_.zip frame.landmarks_).filter
    (fun kl => decide (kl.2 ≠ -1) && (CreateMesh2D.rect L frame).contains kl.1)).map Prod.fst

/-- The records that `createMesh3d_MapPointId` returns for a list of 2D triangles, one
list entry per lifted triangle. -/
def liftedRecords (L : Lib) (m : LandmarkIdToMapPointId) (frame : Frame)
    (triangulation2D : List Vec6f) : List (List Int) :=
  (triangulation2D.filter (liftable L m frame)).map (record L m frame)

/-! ## Concrete inputs -/

/-- A library instance for evaluation: the cast is exact, the lookup is the first exact
match, and the triangle list consists of the triangles of consecutive inserted points
followed by one triangle with a vertex outside every image. -/
def Lib.sample : Lib where
  toFloat := fun d => d
  intToFloat := fun n => (n : ℚ)
  isFloat := fun _ => True
  getTriangleList := fun subdiv =>
    (match subdiv.points with
      | a :: b :: c :: rest =>
        [⟨a.x, a.y, b.x, b.y, c.x, c.y⟩] ++
          (match rest with
            | d :: _ => [⟨b.x, b.y, c.x, c.y, d.x, d.y⟩]
            | [] => [])
      | _ => []) ++ [⟨-1, -1, 0, 0, 1, 1⟩]
  findLmkIdFromPixel := Frame.findLmkIdFromPixel
  intToFloat_nearest := fun _ _ _ h => h
  getTriangleList_isFloat := fun _ _ _ => ⟨trivial, trivial, trivial, trivial, trivial, trivial⟩

/-- The frame of the scenario of the specification: four keypoints in a 200×200 image. -/
def Frame.sample : Frame :=
  { img_ := ⟨200, 200⟩
    keypoints_ := [⟨10, 10⟩, ⟨100, 10⟩, ⟨10, 100⟩, ⟨100, 100⟩]
    landmarks_ := [1, 2, 3, 4] }

/-- A frame with three keypoints and two landmarks. -/
def Frame.malformed : Frame :=
  { img_ := ⟨200, 200⟩
    keypoints_ := [⟨10, 10⟩, ⟨100, 10⟩, ⟨10, 100⟩]
    landmarks_ := [1, 2] }

/-- Two calls that first insert the landmarks 7 and 9. -/
def Call.sampleBefore : List Call :=
  [Call.updateMap3D [(7, ⟨0, 0, 1⟩), (9, ⟨1, 0, 1⟩)]]

/-- Later calls that observe 9 again, insert 11 and 1 to 4, and build a mesh. -/
def Call.sampleLater : List Call :=
  [Call.updateMesh3D [(9, ⟨2, 2, 2⟩), (11, ⟨3, 3, 3⟩)] Frame.sample,
    Call.updateMesh3D [(1, ⟨0, 0, 1⟩), (2, ⟨1, 0, 1⟩), (3, ⟨0, 1, 1⟩), (4, ⟨1, 1, 1⟩)]
      Frame.sample]

/-- A batch that repeats the new landmark 5, observes the known landmark 9 and ends with
the new landmark 3. -/
def sampleBatch : List (LandmarkId × Point3) :=
  [(5, ⟨1, 1, 1⟩), (9, ⟨2, 2, 2⟩), (5, ⟨3, 3, 3⟩), (3, ⟨4, 4, 4⟩)]

/-- The state with the rows of the landmarks 1 to 4. -/
def Mesher.sample : Mesher :=
  Mesher.new.updateMap3D Lib.sample
    [(1, ⟨0, 0, 1⟩), (2, ⟨1, 0, 1⟩), (3, ⟨0, 1, 1⟩), (4, ⟨1, 1, 1⟩)]

/-- The state after a first call of `updateMesh3D`, with the mesh `[3, 0, 1, 2]`. -/
def Mesher.sampleMeshed : Mesher :=
  (Mesher.new.updateMesh3D Lib.sample [(1, ⟨0, 0, 1⟩), (2, ⟨1, 0, 1⟩), (3, ⟨0, 1, 1⟩)]
    Frame.sample).1

/-- A library instance whose primitive returns the first vertex of its triangle half a
pixel off the inserted point, so that the reverse lookup of that vertex finds no
keypoint. -/
def Lib.drift : Lib where
  toFloat := fun d => d
  intToFloat := fun n => (n : ℚ)
  isFloat := fun _ => True
  getTriangleList := fun subdiv =>
    match subdiv.points with
    | a :: b :: c :: _ => [⟨a.x + 1 / 2, a.y, b.x, b.y, c.x, c.y⟩]
    | _ => []
  findLmkIdFromPixel := Frame.findLmkIdFromPixel
  intToFloat_nearest := fun _ _ _ h => h
  getTriangleList_isFloat := fun _ _ _ => ⟨trivial, trivial, trivial, trivial, trivial, trivial⟩

/-- A frame with the three keypoints of the landmarks 1, 2 and 3. -/
def Frame.three : Frame :=
  { img_ := ⟨200, 200⟩
    keypoints_ := [⟨10, 10⟩, ⟨100, 10⟩, ⟨10, 100⟩]
    landmarks_ := [1, 2, 3] }

/-- A batch with an observation whose landmark id is the sentinel `-1`. -/
def sentinelBatch : List (LandmarkId × Point3) :=
  [(-1, ⟨0, 0, 0⟩), (2, ⟨1, 0, 1⟩), (3, ⟨0, 1, 1⟩)]

/-- A frame in which an untracked keypoint (landmark id `-1`) lies on the same pixel as
the keypoint of landmark 1 and precedes it. -/
def Frame.shadowed : Frame :=
  { img_ := ⟨200, 200⟩
    keypoints_ := [⟨10, 10⟩, ⟨10, 10⟩, ⟨100, 10⟩, ⟨10, 100⟩]
    landmarks_ := [-1, 1, 2, 3] }

/-- A frame with four keypoints of which two are valid and lie on the same pixel: the
third is untracked and the fourth lies outside the 200×200 image. -/
def Frame.degenerate : Frame :=
  { img_ := ⟨200, 200⟩
    keypoints_ := [⟨10, 10⟩, ⟨10, 10⟩, ⟨50, 50⟩, ⟨300, 10⟩]
    landmarks_ := [1, 2, -1, 4] }

/-- The number of halvings that bring `a` below `2^24`, with `fuel` an upper bound. -/
def ulpExp : Nat → Nat → Nat
  | 0, _ => 0
  | fuel + 1, a => if a < 2 ^ 24 then 0 else 1 + ulpExp fuel (a / 2)

/-- The natural number `a` rounded to 24 significant bits, to nearest and ties to even. -/
def roundNat (a : Nat) : Nat :=
  let u := 2 ^ ulpExp a a
  let q := a / u
  let r := a % u
  if 2 * r < u ∨ (2 * r = u ∧ q % 2 = 0) then q * u else (q + 1) * u

/-- The integer `n` rounded to 24 significant bits. -/
def roundInt (n : Int) : Int :=
  if 0 ≤ n then (roundNat n.toNat : Int) else -(roundNat (-n).toNat : Int)

/-- The conversion of an `int` to binary32. -/
def intToFloat32 (n : Int) : ℚ :=
  ((roundInt n : Int) : ℚ)

/-- The rationals with a significand of at most 24 bits. -/
def isFloat32 (x : ℚ) : Prop :=
  ∃ (m : Int) (e : Int), |m| < 2 ^ 24 ∧ x = (m : ℚ) * (2 : ℚ) ^ e

/-- A frame with an image 16777217 pixels wide and one tracked keypoint in its last but
one column. -/
def Frame.wide : Frame :=
  { img_ := ⟨16777217, 200⟩
    keypoints_ := [⟨16777216, 10⟩]
    landmarks_ := [1] }

/-- A cast that rounds down to a multiple of `1 / 4`. -/
def quarter (d : ℚ) : ℚ :=
  ((Rat.floor (d * 4) : Int) : ℚ) / 4

/-- A library instance like `Lib.sample`, with a cast to `float` that is not the
identity. -/
def Lib.coarse : Lib where
  toFloat := quarter
  intToFloat := fun n => (n : ℚ)
  isFloat := fun _ => True
  getTriangleList := Lib.sample.getTriangleList
  findLmkIdFromPixel := Frame.findLmkIdFromPixel
  intToFloat_nearest := fun _ _ _ h => h
  getTriangleList_isFloat := fun _ _ _ => ⟨trivial, trivial, trivial, trivial, trivial, trivial⟩

/-- A batch that observes the landmark 5 twice, last with the point `(7/8, 5/3, -9/8)`. -/
def fineBatch : List (LandmarkId × Point3) :=
  [(5, ⟨1, 1, 1⟩), (9, ⟨2, 2, 2⟩), (5, ⟨7 / 8, 5 / 3, -9 / 8⟩)]

/-! ## Facts about `find` and `insert` -/

theorem find_append (m m2 : LandmarkIdToMapPointId) (k : LandmarkId) :
    LandmarkIdToMapPointId.find (m ++ m2) k =
      match LandmarkIdToMapPointId.find m k with
      | some v => some v
      | none => LandmarkIdToMapPointId.find m2 k := by
  induction m with
  | nil => simp [LandmarkIdToMapPointId.find]
  | cons kv rest ih =>
    obtain ⟨k1, v1⟩ := kv
    by_cases h : k1 = k
    · simp [LandmarkIdToMapPointId.find, h]
    · simp [LandmarkIdToMapPointId.find, h, ih]

theorem find_eq_none_iff (m : LandmarkIdToMapPointId) (k : LandmarkId) :
    LandmarkIdToMapPointId.find m k = none ↔ k ∉ LandmarkIdToMapPointId.keys m := by
  induction m with
  | nil => simp [LandmarkIdToMapPointId.find, LandmarkIdToMapPointId.keys]
  | cons kv rest ih =>
    obtain ⟨k1, v1⟩ := kv
    by_cases h : k1 = k
    · simp [LandmarkIdToMapPointId.find, LandmarkIdToMapPointId.keys, h]
    · have h2 : ¬ k = k1 := fun e => h e.symm
      simp only [LandmarkIdToMapPointId.find, h, if_false, ih]
      simp [LandmarkIdToMapPointId.keys, h2]

theorem mem_of_find_eq_some (m : LandmarkIdToMapPointId) (k : LandmarkId) (v : Int)
    (h : LandmarkIdToMapPointId.find m k = some v) : (k, v) ∈ m := by
  induction m with
  | nil => simp [LandmarkIdToMapPointId.find] at h
  | cons kv rest ih =>
    obtain ⟨k1, v1⟩ := kv
    by_cases hk : k1 = k
    · simp [LandmarkIdToMapPointId.find, hk] at h
      simp [hk, h]
    · simp only [LandmarkIdToMapPointId.find, hk, if_false] at h
      exact List.mem_cons_of_mem _ (ih h)

theorem find_eq_some_of_mem (m : LandmarkIdToMapPointId) (k : LandmarkId) (v : Int)
    (hnd : (LandmarkIdToMapPointId.keys m).Nodup) (h : (k, v) ∈ m) :
    LandmarkIdToMapPointId.find m k = some v := by
  induction m with
  | nil => simp at h
  | cons kv rest ih =>
    obtain ⟨k1, v1⟩ := kv
    simp only [LandmarkIdToMapPointId.keys, List.map_cons, List.nodup_cons] at hnd
    rcases List.mem_cons.mp h with h1 | h1
    · injection h1 with h2 h3
      simp [LandmarkIdToMapPointId.find, h2, h3]
    · have hne : ¬ k1 = k := by
        intro e
        apply hnd.1
        rw [e]
        exact List.mem_map_of_mem Prod.fst h1
      simp only [LandmarkIdToMapPointId.find, hne, if_false]
      exact ih hnd.2 h1

/-! ## The invariant is kept by every call -/

theorem setRow_length (t : List Point3f) (r : Int) (p : Point3f) :
    (setRow t r p).length = t.length := by
  unfold setRow
  split <;> simp

theorem insert_of_find_none (m : LandmarkIdToMapPointId) (kv : LandmarkId × Int)
    (h : LandmarkIdToMapPointId.find m kv.1 = none) :
    LandmarkIdToMapPointId.insert m kv = m ++ [kv] := by
  simp [LandmarkIdToMapPointId.insert, h]

theorem body_of_find_none (L : Lib) (m : Mesher) (o : LandmarkId × Point3)
    (h : LandmarkIdToMapPointId.find m.lmkIdToMapPointId_ o.1 = none) :
    updateMap3D.body L m o =
      { m with
        mapPoints3d_ := m.mapPoints3d_ ++ [L.toPoint3f o.2]
        lmkIdToMapPointId_ := m.lmkIdToMapPointId_ ++ [(o.1, m.points3D_count_)]
        points3D_count_ := m.points3D_count_ + 1 } := by
  have hi := insert_of_find_none m.lmkIdToMapPointId_ (o.1, m.points3D_count_) h
  simp only [updateMap3D.body, h, hi]

theorem body_of_find_some (L : Lib) (m : Mesher) (o : LandmarkId × Point3) (r : Int)
    (h : LandmarkIdToMapPointId.find m.lmkIdToMapPointId_ o.1 = some r) :
    updateMap3D.body L m o =
      { m with mapPoints3d_ := setRow m.mapPoints3d_ r (L.toPoint3f o.2) } := by
  simp only [updateMap3D.body, h]

theorem body_consistent (L : Lib) (m : Mesher) (o : LandmarkId × Point3)
    (hm : m.Consistent) : (updateMap3D.body L m o).Consistent := by
  cases h : LandmarkIdToMapPointId.find m.lmkIdToMapPointId_ o.1 with
  | none =>
    rw [body_of_find_none L m o h]
    have hk := (find_eq_none_iff _ _).mp h
    refine ⟨?_, ?_, ?_⟩
    · simp only [LandmarkIdToMapPointId.keys, List.map_append, List.map_cons, List.map_nil]
      have := hm.keys_nodup
      simp only [LandmarkIdToMapPointId.keys] at this hk
      exact List.Nodup.append this (List.nodup_singleton _)
        (by simpa [List.disjoint_singleton] using hk)
    · simp only [List.map_append, List.map_cons, List.map_nil, List.length_append,
        List.length_singleton, List.range_succ, hm.rows, hm.count]
    · simp only [List.length_append, List.length_singleton, hm.count]
      push_cast
      rfl
  | some r =>
    rw [body_of_find_some L m o r h]
    refine ⟨hm.keys_nodup, ?_, ?_⟩
    · simp only [setRow_length]
      exact hm.rows
    · simp only [setRow_length]
      exact hm.count

theorem updateMap3D_consistent (L : Lib) (m : Mesher) (pts : List (LandmarkId × Point3))
    (hm : m.Consistent) : (m.updateMap3D L pts).Consistent := by
  induction pts generalizing m with
  | nil => exact hm
  | cons o rest ih => exact ih _ (body_consistent L m o hm)

theorem new_consistent : Mesher.new.Consistent :=
  ⟨by simp [Mesher.new, LandmarkIdToMapPointId.keys], by simp [Mesher.new],
    by simp [Mesher.new]⟩

/-- Up to the mesh, `updateMesh3D` leaves the object that `updateMap3D` leaves. -/
theorem updateMesh3D_fst (L : Lib) (m : Mesher) (pts : List (LandmarkId × Point3))
    (frame : Frame) :
    (m.updateMesh3D L pts frame).1.mapPoints3d_ = (m.updateMap3D L pts).mapPoints3d_ ∧
    (m.updateMesh3D L pts frame).1.lmkIdToMapPointId_ =
      (m.updateMap3D L pts).lmkIdToMapPointId_ ∧
    (m.updateMesh3D L pts frame).1.points3D_count_ =
      (m.updateMap3D L pts).points3D_count_ := by
  cases h : (m.updateMap3D L pts).createMesh3d_MapPointId L frame <;>
    simp [Mesher.updateMesh3D, h]

theorem updateMesh3D_consistent (L : Lib) (m : Mesher) (pts : List (LandmarkId × Point3))
    (frame : Frame) (hm : m.Consistent) : (m.updateMesh3D L pts frame).1.Consistent := by
  obtain ⟨h1, h2, h3⟩ := updateMesh3D_fst L m pts frame
  have h := updateMap3D_consistent L m pts hm
  exact ⟨by rw [h2]; exact h.keys_nodup, by rw [h1, h2]; exact h.rows,
    by rw [h1, h3]; exact h.count⟩

theorem apply_consistent (L : Lib) (m : Mesher) (c : Call) (hm : m.Consistent) :
    (Call.apply L m c).Consistent := by
  cases c with
  | updateMap3D pts => exact updateMap3D_consistent L m pts hm
  | updateMesh3D pts frame => exact updateMesh3D_consistent L m pts frame hm

theorem run_consistent (L : Lib) (m : Mesher) (calls : List Call) (hm : m.Consistent) :
    (run L m calls).Consistent := by
  induction calls generalizing m with
  | nil => exact hm
  | cons c rest ih => exact ih _ (apply_consistent L m c hm)

/-! ## Consequences of the invariant -/

theorem Consistent.length_map (m : Mesher) (hm : m.Consistent) :
    m.lmkIdToMapPointId_.length = m.mapPoints3d_.length := by
  have h := congrArg List.length hm.rows
  simpa using h

theorem Consistent.row_range (m : Mesher) (hm : m.Consistent) (id : LandmarkId) (r : Int)
    (h : LandmarkIdToMapPointId.find m.lmkIdToMapPointId_ id = some r) :
    0 ≤ r ∧ r < (m.mapPoints3d_.length : Int) := by
  have hmem : r ∈ m.lmkIdToMapPointId_.map Prod.snd :=
    List.mem_map_of_mem Prod.snd (mem_of_find_eq_some _ _ _ h)
  rw [hm.rows] at hmem
  obtain ⟨i, hi, rfl⟩ := List.mem_map.mp hmem
  have hi2 := List.mem_range.mp hi
  constructor
  · exact Int.ofNat_nonneg i
  · exact_mod_cast hi2

theorem Consistent.find_inj (m : Mesher) (hm : m.Consistent) (id1 id2 : LandmarkId) (r : Int)
    (h1 : LandmarkIdToMapPointId.find m.lmkIdToMapPointId_ id1 = some r)
    (h2 : LandmarkIdToMapPointId.find m.lmkIdToMapPointId_ id2 = some r) : id1 = id2 := by
  have hnd : (m.lmkIdToMapPointId_.map Prod.snd).Nodup := by
    rw [hm.rows]
    exact (List.nodup_range _).map (fun a b hab => by exact_mod_cast hab)
  have h := List.inj_on_of_nodup_map hnd (mem_of_find_eq_some _ _ _ h1)
    (mem_of_find_eq_some _ _ _ h2) rfl
  exact congrArg Prod.fst h

theorem Consistent.row_surj (m : Mesher) (hm : m.Consistent) (r : Int) (h0 : 0 ≤ r)
    (h1 : r < (m.mapPoints3d_.length : Int)) :
    ∃ id, LandmarkIdToMapPointId.find m.lmkIdToMapPointId_ id = some r := by
  have hmem : r ∈ m.lmkIdToMapPointId_.map Prod.snd := by
    rw [hm.rows]
    refine List.mem_map.mpr ⟨r.toNat, List.mem_range.mpr ?_, ?_⟩
    · omega
    · omega
  obtain ⟨kv, hkv, rfl⟩ := List.mem_map.mp hmem
  exact ⟨kv.1, find_eq_some_of_mem _ _ _ hm.keys_nodup hkv⟩

/-! ## Entries of the map are never changed -/

theorem body_find_mono (L : Lib) (m : Mesher) (o : LandmarkId × Point3) (id : LandmarkId)
    (r : Int) (h : LandmarkIdToMapPointId.find m.lmkIdToMapPointId_ id = some r) :
    LandmarkIdToMapPointId.find (updateMap3D.body L m o).lmkIdToMapPointId_ id = some r := by
  cases ho : LandmarkIdToMapPointId.find m.lmkIdToMapPointId_ o.1 with
  | none =>
    rw [body_of_find_none L m o ho]
    simp only [find_append, h]
  | some r2 =>
    rw [body_of_find_some L m o r2 ho]
    exact h

theorem updateMap3D_find_mono (L : Lib) (m : Mesher) (pts : List (LandmarkId × Point3))
    (id : LandmarkId) (r : Int)
    (h : LandmarkIdToMapPointId.find m.lmkIdToMapPointId_ id = some r) :
    LandmarkIdToMapPointId.find (m.updateMap3D L pts).lmkIdToMapPointId_ id = some r := by
  induction pts generalizing m with
  | nil => exact h
  | cons o rest ih => exact ih _ (body_find_mono L m o id r h)

theorem apply_find_mono (L : Lib) (m : Mesher) (c : Call) (id : LandmarkId) (r : Int)
    (h : LandmarkIdToMapPointId.find m.lmkIdToMapPointId_ id = some r) :
    LandmarkIdToMapPointId.find (Call.apply L m c).lmkIdToMapPointId_ id = some r := by
  cases c with
  | updateMap3D pts => exact updateMap3D_find_mono L m pts id r h
  | updateMesh3D pts frame =>
    simp only [Call.apply]
    rw [(updateMesh3D_fst L m pts frame).2.1]
    exact updateMap3D_find_mono L m pts id r h

theorem run_find_mono (L : Lib) (m : Mesher) (calls : List Call) (id : LandmarkId) (r : Int)
    (h : LandmarkIdToMapPointId.find m.lmkIdToMapPointId_ id = some r) :
    LandmarkIdToMapPointId.find (run L m calls).lmkIdToMapPointId_ id = some r := by
  induction calls generalizing m with
  | nil => exact h
  | cons c rest ih => exact ih _ (apply_find_mono L m c id r h)

/-! ## The rows given to the new landmarks of a batch -/

theorem firstOccurrences_filter (p : LandmarkId → Bool) (l : List LandmarkId) :
    firstOccurrences (l.filter p) = (firstOccurrences l).filter p := by
  induction l with
  | nil => rfl
  | cons a l ih =>
    by_cases hp : p a = true
    · simp only [List.filter_cons, hp, if_true, firstOccurrences, ih, List.filter_filter]
      congr 1
      apply List.filter_congr
      intro x _
      exact Bool.and_comm _ _
    · simp only [List.filter_cons, hp, firstOccurrences, List.filter_filter]
      simp only [Bool.false_eq_true, if_false]
      rw [ih]
      apply List.filter_congr
      intro x _
      by_cases hx : x = a
      · subst hx
        simp [hp]
      · simp [hx]

theorem mem_firstOccurrences (l : List LandmarkId) (a : LandmarkId) :
    a ∈ firstOccurrences l ↔ a ∈ l := by
  induction l with
  | nil => simp [firstOccurrences]
  | cons b l ih =>
    simp only [firstOccurrences, List.mem_cons, List.mem_filter, ih, decide_eq_true_eq]
    constructor
    · rintro (h | ⟨h, _⟩)
      · exact Or.inl h
      · exact Or.inr h
    · intro h
      by_cases hab : a = b
      · exact Or.inl hab
      · rcases h with h | h
        · exact Or.inl h
        · exact Or.inr ⟨h, hab⟩

theorem firstOccurrences_nodup (l : List LandmarkId) : (firstOccurrences l).Nodup := by
  induction l with
  | nil => simp [firstOccurrences]
  | cons b l ih =>
    simp only [firstOccurrences, List.nodup_cons, List.mem_filter, decide_eq_true_eq]
    exact ⟨fun h => h.2 rfl, ih.filter _⟩

theorem firstOccurrences_of_nodup (l : List LandmarkId) (h : l.Nodup) :
    firstOccurrences l = l := by
  induction l with
  | nil => rfl
  | cons b l ih =>
    rw [List.nodup_cons] at h
    simp only [firstOccurrences, ih h.2]
    congr 1
    rw [List.filter_eq_self]
    intro x hx
    simp only [decide_eq_true_eq]
    intro e
    exact h.1 (e ▸ hx)

theorem firstOccurrences_sublist (l : List LandmarkId) : (firstOccurrences l).Sublist l := by
  induction l with
  | nil => exact List.Sublist.slnil
  | cons b l ih =>
    simp only [firstOccurrences]
    exact ((List.filter_sublist _).trans ih).cons₂ b

theorem assignRows_length (c : Int) (ids : List LandmarkId) :
    (assignRows c ids).length = ids.length := by
  induction ids generalizing c with
  | nil => rfl
  | cons a l ih => simp [assignRows, ih]

theorem find_assignRows (c : Int) (ids : List LandmarkId) (hnd : ids.Nodup) (i : Nat)
    (hi : i < ids.length) :
    LandmarkIdToMapPointId.find (assignRows c ids) ids[i] = some (c + (i : Int)) := by
  induction ids generalizing c i with
  | nil => simp at hi
  | cons a l ih =>
    rw [List.nodup_cons] at hnd
    cases i with
    | zero => simp [assignRows, LandmarkIdToMapPointId.find]
    | succ j =>
      have hj : j < l.length := by simpa using hi
      have hne : ¬ a = l[j] := fun e => hnd.1 (e ▸ List.getElem_mem hj)
      simp only [assignRows, LandmarkIdToMapPointId.find, List.getElem_cons_succ, hne,
        if_false]
      rw [ih (c + 1) hnd.2 j hj]
      push_cast
      congr 1
      ring

theorem newLandmarks_append (m : LandmarkIdToMapPointId) (kv : LandmarkId × Int)
    (pts : List (LandmarkId × Point3)) :
    newLandmarks (m ++ [kv]) pts =
      (newLandmarks m pts).filter (fun b => decide (b ≠ kv.1)) := by
  unfold newLandmarks
  rw [← firstOccurrences_filter, List.filter_filter]
  congr 1
  apply List.filter_congr
  intro x _
  rw [find_append]
  cases hx : LandmarkIdToMapPointId.find m x with
  | some v => simp
  | none =>
    obtain ⟨k, v⟩ := kv
    by_cases hk : k = x
    · simp [LandmarkIdToMapPointId.find, hk]
    · have hk2 : ¬ x = k := fun e => hk e.symm
      simp [LandmarkIdToMapPointId.find, hk, hk2]

theorem newLandmarks_cons_known (m : LandmarkIdToMapPointId) (o : LandmarkId × Point3)
    (pts : List (LandmarkId × Point3)) (r : Int)
    (h : LandmarkIdToMapPointId.find m o.1 = some r) :
    newLandmarks m (o :: pts) = newLandmarks m pts := by
  simp [newLandmarks, List.filter_cons, h]

theorem newLandmarks_cons_new (m : LandmarkIdToMapPointId) (o : LandmarkId × Point3)
    (pts : List (LandmarkId × Point3)) (h : LandmarkIdToMapPointId.find m o.1 = none) :
    newLandmarks m (o :: pts) =
      o.1 :: (newLandmarks m pts).filter (fun b => decide (b ≠ o.1)) := by
  simp [newLandmarks, List.filter_cons, h, firstOccurrences]

/-- What `updateMap3D` does to the map, the counter and the number of rows. -/
theorem updateMap3D_assign (L : Lib) (m : Mesher) (pts : List (LandmarkId × Point3)) :
    (m.updateMap3D L pts).lmkIdToMapPointId_ =
        m.lmkIdToMapPointId_ ++
          assignRows m.points3D_count_ (newLandmarks m.lmkIdToMapPointId_ pts) ∧
      (m.updateMap3D L pts).points3D_count_ =
        m.points3D_count_ + ((newLandmarks m.lmkIdToMapPointId_ pts).length : Int) ∧
      (m.updateMap3D L pts).mapPoints3d_.length =
        m.mapPoints3d_.length + (newLandmarks m.lmkIdToMapPointId_ pts).length := by
  induction pts generalizing m with
  | nil => simp [Mesher.updateMap3D, newLandmarks, firstOccurrences, assignRows]
  | cons o rest ih =>
    have hstep : m.updateMap3D L (o :: rest) = (updateMap3D.body L m o).updateMap3D L rest :=
      rfl
    rw [hstep]
    obtain ⟨ih1, ih2, ih3⟩ := ih (updateMap3D.body L m o)
    cases ho : LandmarkIdToMapPointId.find m.lmkIdToMapPointId_ o.1 with
    | none =>
      rw [body_of_find_none L m o ho] at ih1 ih2 ih3 ⊢
      simp only [newLandmarks_append] at ih1 ih2 ih3
      rw [newLandmarks_cons_new _ o rest ho]
      refine ⟨?_, ?_, ?_⟩
      · rw [ih1]
        simp [assignRows]
      · rw [ih2]
        simp only [List.length_cons]
        push_cast
        ring
      · rw [ih3]
        simp only [List.length_cons, List.length_append, List.length_nil]
        omega
    | some r =>
      rw [body_of_find_some L m o r ho] at ih1 ih2 ih3 ⊢
      rw [newLandmarks_cons_known _ o rest r ho]
      simp only [setRow_length] at ih3
      exact ⟨ih1, ih2, ih3⟩

theorem mem_newLandmarks (m : LandmarkIdToMapPointId) (pts : List (LandmarkId × Point3))
    (id : LandmarkId) :
    id ∈ newLandmarks m pts ↔
      id ∈ pts.map Prod.fst ∧ LandmarkIdToMapPointId.find m id = none := by
  simp only [newLandmarks, mem_firstOccurrences, List.mem_filter, decide_eq_true_eq]

theorem Reachable.consistent (L : Lib) (m : Mesher) (hm : Reachable L m) : m.Consistent := by
  obtain ⟨calls, rfl⟩ := hm
  exact run_consistent L Mesher.new calls new_consistent

theorem newLandmarks_nil_map (pts : List (LandmarkId × Point3))
    (h : (pts.map Prod.fst).Nodup) : newLandmarks [] pts = pts.map Prod.fst := by
  unfold newLandmarks
  have hf : (pts.map Prod.fst).filter
      (fun id => decide (LandmarkIdToMapPointId.find [] id = none)) = pts.map Prod.fst := by
    rw [List.filter_eq_self]
    intro a _
    simp [LandmarkIdToMapPointId.find]
  rw [hf]
  exact firstOccurrences_of_nodup _ h

/-! ## The coordinates written by `updateMap3D` -/

theorem lastObservation_concat (pts : List (LandmarkId × Point3)) (o : LandmarkId × Point3)
    (id : LandmarkId) :
    lastObservation (pts ++ [o]) id =
      if o.1 = id then some o.2 else lastObservation pts id := by
  unfold lastObservation
  by_cases h : o.1 = id
  · simp [List.filter_append, List.filter_cons, h, List.getLast?_append]
  · simp [List.filter_append, List.filter_cons, h]

theorem updateMap3D_concat (L : Lib) (m : Mesher) (pts : List (LandmarkId × Point3))
    (o : LandmarkId × Point3) :
    m.updateMap3D L (pts ++ [o]) = updateMap3D.body L (m.updateMap3D L pts) o := by
  simp [Mesher.updateMap3D, List.foldl_append]

theorem setRow_get_self (t : List Point3f) (r : Int) (p : Point3f) (h0 : 0 ≤ r)
    (h1 : r < (t.length : Int)) : (setRow t r p)[r.toNat]? = some p := by
  have h2 : r.toNat < t.length := by omega
  simp [setRow, h0, List.getElem?_set, h2]

theorem setRow_get_other (t : List Point3f) (r r2 : Int) (p : Point3f) (h0 : 0 ≤ r2)
    (hne : r ≠ r2) (hr : 0 ≤ r) : (setRow t r p)[r2.toNat]? = t[r2.toNat]? := by
  have h2 : r.toNat ≠ r2.toNat := by omega
  simp [setRow, hr, List.getElem?_set, h2]

/-- After one observation is processed, the row of its landmark holds its point. -/
theorem body_row (L : Lib) (m : Mesher) (o : LandmarkId × Point3) (hm : m.Consistent) :
    ∃ r : Int,
      LandmarkIdToMapPointId.find (updateMap3D.body L m o).lmkIdToMapPointId_ o.1 = some r ∧
        0 ≤ r ∧ (updateMap3D.body L m o).mapPoints3d_[r.toNat]? = some (L.toPoint3f o.2) := by
  cases ho : LandmarkIdToMapPointId.find m.lmkIdToMapPointId_ o.1 with
  | none =>
    rw [body_of_find_none L m o ho]
    refine ⟨m.points3D_count_, ?_, ?_, ?_⟩
    · simp [find_append, ho, LandmarkIdToMapPointId.find]
    · rw [hm.count]
      exact Int.ofNat_nonneg _
    · simp only [hm.count, Int.toNat_ofNat]
      exact List.getElem?_concat_length _ _
  | some r =>
    rw [body_of_find_some L m o r ho]
    obtain ⟨h0, h1⟩ := Consistent.row_range m hm o.1 r ho
    exact ⟨r, ho, h0, setRow_get_self _ _ _ h0 h1⟩

/-- Processing an observation of another landmark leaves the row of `id` as it is. -/
theorem body_other_row (L : Lib) (m : Mesher) (o : LandmarkId × Point3) (hm : m.Consistent)
    (id : LandmarkId) (r : Int)
    (h : LandmarkIdToMapPointId.find m.lmkIdToMapPointId_ id = some r) (hne : ¬ o.1 = id) :
    (updateMap3D.body L m o).mapPoints3d_[r.toNat]? = m.mapPoints3d_[r.toNat]? := by
  obtain ⟨h0, h1⟩ := Consistent.row_range m hm id r h
  cases ho : LandmarkIdToMapPointId.find m.lmkIdToMapPointId_ o.1 with
  | none =>
    rw [body_of_find_none L m o ho]
    exact List.getElem?_append_left (by omega)
  | some r2 =>
    rw [body_of_find_some L m o r2 ho]
    obtain ⟨h2, _⟩ := Consistent.row_range m hm o.1 r2 ho
    have hr : r2 ≠ r := fun e => hne (Consistent.find_inj m hm o.1 id r (e ▸ ho) h)
    exact setRow_get_other _ _ _ _ h0 hr h2

/-! ## The two stages of the mesh of a frame -/

theorem subdiv_of_ne (L : Lib) (frame : Frame)
    (h : frame.keypoints_.length ≠ frame.landmarks_.length) :
    CreateMesh2D.subdiv L frame = Except.error wrongDimension := by
  have h2 : frame.landmarks_.length ≠ frame.keypoints_.length := fun e => h e.symm
  simp [CreateMesh2D.subdiv, h2]

theorem subdiv_of_eq (L : Lib) (frame : Frame)
    (h : frame.keypoints_.length = frame.landmarks_.length) :
    ∃ subdiv, CreateMesh2D.subdiv L frame = Except.ok subdiv := by
  simp [CreateMesh2D.subdiv, h]

theorem foldl_push_if {α : Type} (p : α → Bool) (acc l : List α) :
    l.foldl (fun out t => if p t = true then out ++ [t] else out) acc = acc ++ l.filter p := by
  induction l generalizing acc with
  | nil => simp
  | cons a l ih =>
    by_cases h : p a = true
    · simp [List.foldl_cons, ih, h, List.filter_cons]
    · simp [List.foldl_cons, ih, h, List.filter_cons]

/-- For a well-formed frame `CreateMesh2D` returns the triangles of the primitive whose
three vertices lie in the image rectangle. -/
theorem CreateMesh2D_of_eq (L : Lib) (frame : Frame)
    (h : frame.keypoints_.length = frame.landmarks_.length) :
    ∃ subdiv, CreateMesh2D.subdiv L frame = Except.ok subdiv ∧
      CreateMesh2D L frame =
        Except.ok ((L.getTriangleList subdiv).filter
          (CreateMesh2D.inside (CreateMesh2D.rect L frame))) := by
  obtain ⟨subdiv, hs⟩ := subdiv_of_eq L frame h
  refine ⟨subdiv, hs, ?_⟩
  simp only [CreateMesh2D, hs, foldl_push_if, List.nil_append]

theorem CreateMesh2D_of_ne (L : Lib) (frame : Frame)
    (h : frame.keypoints_.length ≠ frame.landmarks_.length) :
    CreateMesh2D L frame = Except.error wrongDimension := by
  simp only [CreateMesh2D, subdiv_of_ne L frame h]

theorem mem_keys_iff (m : LandmarkIdToMapPointId) (k : LandmarkId) :
    k ∈ LandmarkIdToMapPointId.keys m ↔
      ∃ r, LandmarkIdToMapPointId.find m k = some r := by
  have h := find_eq_none_iff m k
  cases hf : LandmarkIdToMapPointId.find m k with
  | none =>
    rw [hf] at h
    simp [h.mp rfl]
  | some r =>
    rw [hf] at h
    simp only [reduceCtorEq, false_iff, not_not] at h
    simp [h]

theorem decide_mem_keys (m : LandmarkIdToMapPointId) (k : LandmarkId) :
    decide (k ∈ LandmarkIdToMapPointId.keys m) = (LandmarkIdToMapPointId.find m k).isSome := by
  cases hf : LandmarkIdToMapPointId.find m k with
  | none => simpa using (find_eq_none_iff m k).mp hf
  | some r => simpa using (mem_keys_iff m k).mpr ⟨r, hf⟩

theorem body_core (m : LandmarkIdToMapPointId) (polygon : List Int)
    (id1 id2 id3 : LandmarkId) :
    (match LandmarkIdToMapPointId.find m id1, LandmarkIdToMapPointId.find m id2,
        LandmarkIdToMapPointId.find m id3 with
      | some row1, some row2, some row3 => polygon ++ [3] ++ [row1] ++ [row2] ++ [row3]
      | _, _, _ => polygon) =
      polygon ++
        (if (decide (id1 ∈ LandmarkIdToMapPointId.keys m) &&
              decide (id2 ∈ LandmarkIdToMapPointId.keys m) &&
              decide (id3 ∈ LandmarkIdToMapPointId.keys m)) = true then
          [3, (LandmarkIdToMapPointId.find m id1).getD (-1),
            (LandmarkIdToMapPointId.find m id2).getD (-1),
            (LandmarkIdToMapPointId.find m id3).getD (-1)]
        else []) := by
  rw [decide_mem_keys, decide_mem_keys, decide_mem_keys]
  cases LandmarkIdToMapPointId.find m id1 <;> cases LandmarkIdToMapPointId.find m id2 <;>
    cases LandmarkIdToMapPointId.find m id3 <;> simp

theorem body_eq (L : Lib) (m : LandmarkIdToMapPointId) (frame : Frame) (polygon : List Int)
    (t : Vec6f) :
    createMesh3d_MapPointId.body L m frame polygon t =
      polygon ++ (if liftable L m frame t = true then record L m frame t else []) :=
  body_core m polygon _ _ _

theorem foldl_body (L : Lib) (m : LandmarkIdToMapPointId) (frame : Frame)
    (polygon : List Int) (tris : List Vec6f) :
    tris.foldl (createMesh3d_MapPointId.body L m frame) polygon =
      polygon ++ (tris.filter (liftable L m frame)).flatMap (record L m frame) := by
  induction tris generalizing polygon with
  | nil => simp
  | cons t rest ih =>
    rw [List.foldl_cons, ih, body_eq]
    by_cases h : liftable L m frame t = true
    · simp [h, List.filter_cons]
    · simp [h, List.filter_cons]

theorem createMesh3d_of_eq (L : Lib) (m : Mesher) (frame : Frame)
    (h : frame.keypoints_.length = frame.landmarks_.length) :
    ∃ triangulation2D, CreateMesh2D L frame = Except.ok triangulation2D ∧
      m.createMesh3d_MapPointId L frame =
        Except.ok ((triangulation2D.filter (liftable L m.lmkIdToMapPointId_ frame)).flatMap
          (record L m.lmkIdToMapPointId_ frame)) := by
  obtain ⟨subdiv, _, h2⟩ := CreateMesh2D_of_eq L frame h
  refine ⟨_, h2, ?_⟩
  simp only [Mesher.createMesh3d_MapPointId, h2, foldl_body, List.nil_append]

theorem createMesh3d_of_ne (L : Lib) (m : Mesher) (frame : Frame)
    (h : frame.keypoints_.length ≠ frame.landmarks_.length) :
    m.createMesh3d_MapPointId L frame = Except.error wrongDimension := by
  simp only [Mesher.createMesh3d_MapPointId, CreateMesh2D_of_ne L frame h]

theorem body_polygonsMesh (L : Lib) (m : Mesher) (o : LandmarkId × Point3) :
    (updateMap3D.body L m o).polygonsMesh_ = m.polygonsMesh_ := by
  cases ho : LandmarkIdToMapPointId.find m.lmkIdToMapPointId_ o.1 with
  | none => rw [body_of_find_none L m o ho]
  | some r => rw [body_of_find_some L m o r ho]

theorem updateMap3D_polygonsMesh (L : Lib) (m : Mesher) (pts : List (LandmarkId × Point3)) :
    (m.updateMap3D L pts).polygonsMesh_ = m.polygonsMesh_ := by
  induction pts generalizing m with
  | nil => rfl
  | cons o rest ih =>
    have hstep : m.updateMap3D L (o :: rest) = (updateMap3D.body L m o).updateMap3D L rest :=
      rfl
    rw [hstep, ih, body_polygonsMesh]

/-! ## Well-formed polygon lists -/

theorem encodeTriangles_append (a b : List (Int × Int × Int)) :
    encodeTriangles (a ++ b) = encodeTriangles a ++ encodeTriangles b := by
  induction a with
  | nil => rfl
  | cons t rest ih =>
    obtain ⟨i, j, k⟩ := t
    simp [encodeTriangles, ih]

theorem encodeTriangles_length (a : List (Int × Int × Int)) :
    (encodeTriangles a).length = 4 * a.length := by
  induction a with
  | nil => rfl
  | cons t rest ih =>
    obtain ⟨i, j, k⟩ := t
    simp only [encodeTriangles, List.length_cons, ih]
    omega

theorem WellFormedPolygons.nil (n : Nat) : WellFormedPolygons n [] :=
  ⟨[], rfl, by simp⟩

theorem WellFormedPolygons.mono (n n2 : Nat) (p : List Int) (hn : n ≤ n2)
    (h : WellFormedPolygons n p) : WellFormedPolygons n2 p := by
  obtain ⟨ts, hp, hr⟩ := h
  refine ⟨ts, hp, fun t ht => ?_⟩
  obtain ⟨⟨a1, a2⟩, ⟨b1, b2⟩, c1, c2⟩ := hr t ht
  have hn2 : (n : Int) ≤ (n2 : Int) := by exact_mod_cast hn
  exact ⟨⟨a1, by omega⟩, ⟨b1, by omega⟩, c1, by omega⟩

theorem WellFormedPolygons.append (n : Nat) (p q : List Int) (hp : WellFormedPolygons n p)
    (hq : WellFormedPolygons n q) : WellFormedPolygons n (p ++ q) := by
  obtain ⟨ts, hp1, hp2⟩ := hp
  obtain ⟨us, hq1, hq2⟩ := hq
  refine ⟨ts ++ us, by rw [encodeTriangles_append, hp1, hq1], fun t ht => ?_⟩
  rcases List.mem_append.mp ht with h | h
  · exact hp2 t h
  · exact hq2 t h

theorem WellFormedPolygons.length (n : Nat) (p : List Int) (h : WellFormedPolygons n p) :
    p.length % 4 = 0 := by
  obtain ⟨ts, hp, _⟩ := h
  rw [hp, encodeTriangles_length]
  omega

theorem row_of_mem_keys (m : Mesher) (hm : m.Consistent) (k : LandmarkId)
    (hk : k ∈ LandmarkIdToMapPointId.keys m.lmkIdToMapPointId_) :
    0 ≤ LandmarkIdToMapPointId.row m.lmkIdToMapPointId_ k ∧
      LandmarkIdToMapPointId.row m.lmkIdToMapPointId_ k < (m.mapPoints3d_.length : Int) := by
  obtain ⟨r, hr⟩ := (mem_keys_iff _ _).mp hk
  have h := Consistent.row_range m hm k r hr
  simpa [LandmarkIdToMapPointId.row, hr] using h

theorem flatMap_record_wf (L : Lib) (m : Mesher) (hm : m.Consistent) (frame : Frame)
    (l : List Vec6f) (hl : ∀ t ∈ l, liftable L m.lmkIdToMapPointId_ frame t = true) :
    WellFormedPolygons m.mapPoints3d_.length
      (l.flatMap (record L m.lmkIdToMapPointId_ frame)) := by
  induction l with
  | nil => exact WellFormedPolygons.nil _
  | cons t rest ih =>
    rw [List.flatMap_cons]
    refine WellFormedPolygons.append _ _ _ ?_ (ih fun u hu => hl u (List.mem_cons_of_mem _ hu))
    have ht := hl t (List.mem_cons_self _ _)
    simp only [liftable, Bool.and_eq_true, decide_eq_true_eq] at ht
    obtain ⟨⟨h1, h2⟩, h3⟩ := ht
    refine ⟨[(_, _, _)], rfl, fun u hu => ?_⟩
    rw [List.mem_singleton] at hu
    subst hu
    exact ⟨row_of_mem_keys m hm _ h1, row_of_mem_keys m hm _ h2, row_of_mem_keys m hm _ h3⟩

/-- In a consistent state every index that `createMesh3d_MapPointId` returns is a row. -/
theorem createMesh3d_wf (L : Lib) (m : Mesher) (hm : m.Consistent) (frame : Frame)
    (polygon : List Int) (h : m.createMesh3d_MapPointId L frame = Except.ok polygon) :
    WellFormedPolygons m.mapPoints3d_.length polygon := by
  by_cases hf : frame.keypoints_.length = frame.landmarks_.length
  · obtain ⟨tris, _, h2⟩ := createMesh3d_of_eq L m frame hf
    rw [h2] at h
    injection h with h
    rw [← h]
    exact flatMap_record_wf L m hm frame _ (fun t ht => (List.mem_filter.mp ht).2)
  · rw [createMesh3d_of_ne L m frame hf] at h
    cases h

theorem updateMap3D_length_le (L : Lib) (m : Mesher) (pts : List (LandmarkId × Point3)) :
    m.mapPoints3d_.length ≤ (m.updateMap3D L pts).mapPoints3d_.length := by
  rw [(updateMap3D_assign L m pts).2.2]
  exact Nat.le_add_right _ _

theorem updateMesh3D_wf (L : Lib) (m : Mesher) (pts : List (LandmarkId × Point3))
    (frame : Frame) (hm : m.Consistent)
    (hw : WellFormedPolygons m.mapPoints3d_.length m.polygonsMesh_) :
    WellFormedPolygons (m.updateMesh3D L pts frame).1.mapPoints3d_.length
      (m.updateMesh3D L pts frame).1.polygonsMesh_ := by
  have hc := updateMap3D_consistent L m pts hm
  have hw1 : WellFormedPolygons (m.updateMap3D L pts).mapPoints3d_.length m.polygonsMesh_ :=
    WellFormedPolygons.mono _ _ _ (updateMap3D_length_le L m pts) hw
  cases hp : (m.updateMap3D L pts).createMesh3d_MapPointId L frame with
  | error e =>
    simp only [Mesher.updateMesh3D, hp, updateMap3D_polygonsMesh]
    exact hw1
  | ok polygon =>
    simp only [Mesher.updateMesh3D, hp, updateMap3D_polygonsMesh]
    exact WellFormedPolygons.append _ _ _ hw1 (createMesh3d_wf L _ hc frame polygon hp)

theorem run_wf (L : Lib) (m : Mesher) (calls : List Call) (hm : m.Consistent)
    (hw : WellFormedPolygons m.mapPoints3d_.length m.polygonsMesh_) :
    WellFormedPolygons (run L m calls).mapPoints3d_.length (run L m calls).polygonsMesh_ := by
  induction calls generalizing m with
  | nil => exact hw
  | cons c rest ih =>
    refine ih _ (apply_consistent L m c hm) ?_
    cases c with
    | updateMap3D pts =>
      simp only [Call.apply, updateMap3D_polygonsMesh]
      exact WellFormedPolygons.mono _ _ _ (updateMap3D_length_le L m pts) hw
    | updateMesh3D pts frame => exact updateMesh3D_wf L m pts frame hm hw

/-! ## The keys of the map come from the batches -/

theorem keys_assignRows (c : Int) (ids : List LandmarkId) :
    LandmarkIdToMapPointId.keys (assignRows c ids) = ids := by
  induction ids generalizing c with
  | nil => rfl
  | cons a l ih =>
    simp only [assignRows, LandmarkIdToMapPointId.keys, List.map_cons] at ih ⊢
    rw [ih]

theorem keys_updateMap3D (L : Lib) (m : Mesher) (pts : List (LandmarkId × Point3)) :
    LandmarkIdToMapPointId.keys (m.updateMap3D L pts).lmkIdToMapPointId_ =
      LandmarkIdToMapPointId.keys m.lmkIdToMapPointId_ ++
        newLandmarks m.lmkIdToMapPointId_ pts := by
  rw [(updateMap3D_assign L m pts).1]
  simp only [LandmarkIdToMapPointId.keys, List.map_append]
  have h := keys_assignRows m.points3D_count_ (newLandmarks m.lmkIdToMapPointId_ pts)
  simp only [LandmarkIdToMapPointId.keys] at h
  rw [h]

theorem mem_keys_updateMap3D (L : Lib) (m : Mesher) (pts : List (LandmarkId × Point3))
    (k : LandmarkId) :
    k ∈ LandmarkIdToMapPointId.keys (m.updateMap3D L pts).lmkIdToMapPointId_ ↔
      k ∈ LandmarkIdToMapPointId.keys m.lmkIdToMapPointId_ ∨ k ∈ pts.map Prod.fst := by
  rw [keys_updateMap3D, List.mem_append, mem_newLandmarks, find_eq_none_iff]
  constructor
  · rintro (h | ⟨h, _⟩)
    · exact Or.inl h
    · exact Or.inr h
  · rintro (h | h)
    · exact Or.inl h
    · by_cases hk : k ∈ LandmarkIdToMapPointId.keys m.lmkIdToMapPointId_
      · exact Or.inl hk
      · exact Or.inr ⟨h, hk⟩

theorem mem_keys_apply (L : Lib) (m : Mesher) (c : Call) (k : LandmarkId) :
    k ∈ LandmarkIdToMapPointId.keys (Call.apply L m c).lmkIdToMapPointId_ ↔
      k ∈ LandmarkIdToMapPointId.keys m.lmkIdToMapPointId_ ∨
        k ∈ c.pointsWithId.map Prod.fst := by
  cases c with
  | updateMap3D pts => exact mem_keys_updateMap3D L m pts k
  | updateMesh3D pts frame =>
    simp only [Call.apply, Call.pointsWithId]
    rw [(updateMesh3D_fst L m pts frame).2.1]
    exact mem_keys_updateMap3D L m pts k

theorem mem_keys_run (L : Lib) (m : Mesher) (calls : List Call) (k : LandmarkId)
    (h : k ∈ LandmarkIdToMapPointId.keys (run L m calls).lmkIdToMapPointId_) :
    k ∈ LandmarkIdToMapPointId.keys m.lmkIdToMapPointId_ ∨
      ∃ c ∈ calls, k ∈ c.pointsWithId.map Prod.fst := by
  induction calls generalizing m with
  | nil => exact Or.inl h
  | cons c rest ih =>
    rcases ih (Call.apply L m c) h with h1 | ⟨d, hd, hk⟩
    · rcases (mem_keys_apply L m c k).mp h1 with h2 | h2
      · exact Or.inl h2
      · exact Or.inr ⟨c, List.mem_cons_self _ _, h2⟩
    · exact Or.inr ⟨d, List.mem_cons_of_mem _ hd, hk⟩

theorem liftable_of_unresolved (L : Lib) (m : LandmarkIdToMapPointId) (frame : Frame)
    (t : Vec6f) (hm : (-1 : LandmarkId) ∉ LandmarkIdToMapPointId.keys m)
    (ht : unresolved L frame t = true) : liftable L m frame t = false := by
  simp only [unresolved, Bool.or_eq_true, decide_eq_true_eq] at ht
  rw [Bool.eq_false_iff]
  intro hl
  simp only [liftable, Bool.and_eq_true, decide_eq_true_eq] at hl
  obtain ⟨⟨h1, h2⟩, h3⟩ := hl
  rcases ht with (e | e) | e
  · exact hm (e ▸ h1)
  · exact hm (e ▸ h2)
  · exact hm (e ▸ h3)

/-! ## The points inserted into the subdivision -/

theorem insert_loop (ks : List Point2f) (ls : List LandmarkId) (rect : Rect2f)
    (hl : ks.length = ls.length) (s0 : Subdiv2D) (n : Nat) (hn : n ≤ ks.length) :
    (List.range n).foldl
        (fun subdiv i =>
          if ls.getD i (-1) ≠ -1 ∧ rect.contains (ks.getD i ⟨0, 0⟩) = true then
            subdiv.insert (ks.getD i ⟨0, 0⟩)
          else subdiv)
        s0 =
      { s0 with
        points := s0.points ++
          (((ks.take n).zip (ls.take n)).filter
            (fun kl => decide (kl.2 ≠ -1) && rect.contains kl.1)).map Prod.fst } := by
  induction n with
  | zero => simp
  | succ n ih =>
    have hk : n < ks.length := hn
    have hk2 : n < ls.length := hl ▸ hk
    rw [List.range_succ, List.foldl_append, ih (Nat.le_of_lt hk)]
    have e1 : ks.take (n + 1) = ks.take n ++ [ks[n]] := by
      rw [List.take_succ, List.getElem?_eq_getElem hk]
      rfl
    have e2 : ls.take (n + 1) = ls.take n ++ [ls[n]] := by
      rw [List.take_succ, List.getElem?_eq_getElem hk2]
      rfl
    have e3 : (ks.take n).length = (ls.take n).length := by
      simp [List.length_take, hl]
    rw [e1, e2, List.zip_append e3]
    simp only [List.foldl_cons, List.foldl_nil, List.getD_eq_getElem _ _ hk,
      List.getD_eq_getElem _ _ hk2, List.filter_append, List.map_append, List.zip_cons_cons,
      List.zip_nil_right, List.filter_cons, List.filter_nil]
    by_cases hc : ls[n] ≠ -1 ∧ rect.contains ks[n] = true
    · simp [hc, Subdiv2D.insert]
    · rw [if_neg hc]
      have hc2 : (decide (ls[n] ≠ -1) && rect.contains ks[n]) = false := by
        rw [Bool.eq_false_iff]
        intro hb
        simp only [Bool.and_eq_true, decide_eq_true_eq] at hb
        exact hc hb
      simp only [hc2, Bool.false_eq_true, if_false, List.map_nil, List.append_nil]

theorem subdiv_eq (L : Lib) (frame : Frame)
    (h : frame.keypoints_.length = frame.landmarks_.length) :
    CreateMesh2D.subdiv L frame =
      Except.ok { rect := CreateMesh2D.rect L frame, points := validKeypoints L frame } := by
  have hl := insert_loop frame.keypoints_ frame.landmarks_ (CreateMesh2D.rect L frame) h
    { rect := CreateMesh2D.rect L frame, points := [] } frame.keypoints_.length
    (Nat.le_refl _)
  have h2 : ¬ frame.landmarks_.length ≠ frame.keypoints_.length := fun e => e h.symm
  simp only [CreateMesh2D.subdiv, h2, if_false]
  rw [hl]
  simp only [List.nil_append, List.take_length, validKeypoints]
  rw [h, List.take_length]

theorem Mesher.eq_of_fields (a b : Mesher) (h1 : a.mapPoints3d_ = b.mapPoints3d_)
    (h2 : a.polygonsMesh_ = b.polygonsMesh_)
    (h3 : a.lmkIdToMapPointId_ = b.lmkIdToMapPointId_)
    (h4 : a.points3D_count_ = b.points3D_count_) : a = b := by
  cases a
  cases b
  simp only at h1 h2 h3 h4
  subst h1 h2 h3 h4
  rfl

theorem updateMap3D_other_row (L : Lib) (m : Mesher) (pts : List (LandmarkId × Point3))
    (hm : m.Consistent) (id : LandmarkId) (r : Int)
    (h : LandmarkIdToMapPointId.find m.lmkIdToMapPointId_ id = some r)
    (hid : id ∉ pts.map Prod.fst) :
    (m.updateMap3D L pts).mapPoints3d_[r.toNat]? = m.mapPoints3d_[r.toNat]? := by
  induction pts generalizing m with
  | nil => rfl
  | cons o rest ih =>
    have hstep : m.updateMap3D L (o :: rest) = (updateMap3D.body L m o).updateMap3D L rest :=
      rfl
    simp only [List.map_cons, List.mem_cons, not_or] at hid
    have hne : ¬ o.1 = id := fun e => hid.1 e.symm
    rw [hstep, ih _ (body_consistent L m o hm) (body_find_mono L m o id r h) hid.2]
    exact body_other_row L m o hm id r h hne

theorem updateMap3D_last (L : Lib) (m : Mesher) (pts : List (LandmarkId × Point3))
    (hc : m.Consistent) (id : LandmarkId) (p : Point3)
    (h : lastObservation pts id = some p) :
    ∃ r : Int,
      LandmarkIdToMapPointId.find (m.updateMap3D L pts).lmkIdToMapPointId_ id = some r ∧
        0 ≤ r ∧ (m.updateMap3D L pts).mapPoints3d_[r.toNat]? = some (L.toPoint3f p) := by
  induction pts using List.reverseRecOn with
  | nil => simp [lastObservation] at h
  | append_singleton pts o ih =>
    rw [updateMap3D_concat]
    have hc1 := updateMap3D_consistent L m pts hc
    rw [lastObservation_concat] at h
    by_cases ho : o.1 = id
    · simp only [ho, if_true, Option.some.injEq] at h
      obtain ⟨r, h1, h2, h3⟩ := body_row L (m.updateMap3D L pts) o hc1
      exact ⟨r, ho ▸ h1, h2, h ▸ h3⟩
    · simp only [ho, if_false] at h
      obtain ⟨r, h1, h2, h3⟩ := ih h
      refine ⟨r, body_find_mono L _ o id r h1, h2, ?_⟩
      rw [body_other_row L _ o hc1 id r h1 ho]
      exact h3

theorem lastObservation_of_mem (pts : List (LandmarkId × Point3)) (id : LandmarkId)
    (h : id ∈ pts.map Prod.fst) : ∃ p, lastObservation pts id = some p := by
  induction pts using List.reverseRecOn with
  | nil => simp at h
  | append_singleton pts o ih =>
    rw [lastObservation_concat]
    by_cases ho : o.1 = id
    · exact ⟨o.2, by simp [ho]⟩
    · simp only [ho, if_false]
      apply ih
      simp only [List.map_append, List.map_cons, List.map_nil, List.mem_append,
        List.mem_singleton] at h
      rcases h with h | h
      · exact h
      · exact absurd h.symm ho

theorem newLandmarks_eq_nil (m : LandmarkIdToMapPointId) (pts : List (LandmarkId × Point3))
    (h : ∀ id ∈ pts.map Prod.fst, id ∈ LandmarkIdToMapPointId.keys m) :
    newLandmarks m pts = [] := by
  rw [List.eq_nil_iff_forall_not_mem]
  intro id hid
  obtain ⟨h1, h2⟩ := (mem_newLandmarks m pts id).mp hid
  exact (find_eq_none_iff m id).mp h2 (h id h1)

/-- In a consistent state, a second pass of the same batch changes nothing. -/
theorem updateMap3D_twice (L : Lib) (m : Mesher) (pts : List (LandmarkId × Point3))
    (hc : m.Consistent) :
    (m.updateMap3D L pts).updateMap3D L pts = m.updateMap3D L pts := by
  have hc1 := updateMap3D_consistent L m pts hc
  have hc2 := updateMap3D_consistent L _ pts hc1
  have hnil : newLandmarks (m.updateMap3D L pts).lmkIdToMapPointId_ pts = [] :=
    newLandmarks_eq_nil _ _ (fun id hid => (mem_keys_updateMap3D L m pts id).mpr (Or.inr hid))
  obtain ⟨a1, a2, a3⟩ := updateMap3D_assign L (m.updateMap3D L pts) pts
  rw [hnil] at a1 a2 a3
  simp only [assignRows, List.append_nil, List.length_nil, Nat.cast_zero, add_zero] at a1 a2 a3
  refine Mesher.eq_of_fields _ _ ?_ ?_ a1 a2
  · apply List.ext_getElem?
    intro n
    by_cases hn : n < (m.updateMap3D L pts).mapPoints3d_.length
    · obtain ⟨id, hid⟩ := Consistent.row_surj _ hc1 (n : Int) (Int.ofNat_nonneg n)
        (by exact_mod_cast hn)
      have hid2 := updateMap3D_find_mono L _ pts id _ hid
      by_cases hmem : id ∈ pts.map Prod.fst
      · obtain ⟨p, hp⟩ := lastObservation_of_mem pts id hmem
        obtain ⟨r1, f1, _, t1⟩ := updateMap3D_last L m pts hc id p hp
        obtain ⟨r2, f2, _, t2⟩ := updateMap3D_last L _ pts hc1 id p hp
        rw [hid] at f1
        rw [hid2] at f2
        injection f1 with f1
        injection f2 with f2
        subst f1
        subst f2
        simp only [Int.toNat_ofNat] at t1 t2
        rw [t1, t2]
      · have hb := updateMap3D_other_row L _ pts hc1 id (n : Int) hid hmem
        simpa using hb
    · rw [List.getElem?_eq_none (by omega), List.getElem?_eq_none (by omega)]
  · rw [updateMap3D_polygonsMesh]

/-! ## The lift grows with the map -/

theorem sublist_filter_map {α β : Type} (p q : α → Bool) (f g : α → β) (l : List α)
    (hpq : ∀ t, p t = true → q t = true) (hfg : ∀ t, p t = true → f t = g t) :
    ((l.filter p).map f).Sublist ((l.filter q).map g) := by
  induction l with
  | nil => exact List.Sublist.slnil
  | cons t l ih =>
    by_cases hp : p t = true
    · simp only [List.filter_cons, hp, hpq t hp, if_true, List.map_cons, hfg t hp]
      exact ih.cons₂ _
    · by_cases hq : q t = true
      · simp only [List.filter_cons, hp, hq, if_true, List.map_cons]
        exact ih.cons _
      · simp only [List.filter_cons, hp, hq]
        exact ih

theorem row_mono (m m2 : LandmarkIdToMapPointId)
    (hmono : ∀ id r, LandmarkIdToMapPointId.find m id = some r →
      LandmarkIdToMapPointId.find m2 id = some r)
    (id : LandmarkId) (hk : id ∈ LandmarkIdToMapPointId.keys m) :
    id ∈ LandmarkIdToMapPointId.keys m2 ∧
      LandmarkIdToMapPointId.row m id = LandmarkIdToMapPointId.row m2 id := by
  obtain ⟨r, hr⟩ := (mem_keys_iff m id).mp hk
  have hr2 := hmono id r hr
  exact ⟨(mem_keys_iff m2 id).mpr ⟨r, hr2⟩, by simp [LandmarkIdToMapPointId.row, hr, hr2]⟩

theorem liftedRecords_mono (L : Lib) (m m2 : LandmarkIdToMapPointId) (frame : Frame)
    (tris : List Vec6f)
    (hmono : ∀ id r, LandmarkIdToMapPointId.find m id = some r →
      LandmarkIdToMapPointId.find m2 id = some r) :
    (liftedRecords L m frame tris).Sublist (liftedRecords L m2 frame tris) := by
  apply sublist_filter_map
  · intro t ht
    simp only [liftable, Bool.and_eq_true, decide_eq_true_eq] at ht ⊢
    exact ⟨⟨(row_mono m m2 hmono _ ht.1.1).1, (row_mono m m2 hmono _ ht.1.2).1⟩,
      (row_mono m m2 hmono _ ht.2).1⟩
  · intro t ht
    simp only [liftable, Bool.and_eq_true, decide_eq_true_eq] at ht
    simp only [record, (row_mono m m2 hmono _ ht.1.1).2, (row_mono m m2 hmono _ ht.1.2).2,
      (row_mono m m2 hmono _ ht.2).2]

/-! ## The conversion of `int` to binary32 -/

theorem ulpExp_small (fuel a : Nat) (h : a < 2 ^ 24) : ulpExp fuel a = 0 := by
  cases fuel with
  | zero => rfl
  | succ fuel => simp only [ulpExp, h, if_true]

theorem ulpExp_large (fuel a : Nat) (h : ¬ a < 2 ^ 24) :
    ulpExp (fuel + 1) a = 1 + ulpExp fuel (a / 2) := by
  simp only [ulpExp, h, if_false]

theorem ulpExp_spec (fuel a : Nat) (h : a < 2 ^ (24 + fuel)) :
    a / 2 ^ ulpExp fuel a < 2 ^ 24 ∧ (2 ^ 24 ≤ a → 2 ^ 23 ≤ a / 2 ^ ulpExp fuel a) := by
  induction fuel generalizing a with
  | zero =>
    simp only [Nat.add_zero] at h
    rw [ulpExp_small 0 a h, pow_zero, Nat.div_one]
    exact ⟨h, fun h2 => absurd h (by omega)⟩
  | succ fuel ih =>
    by_cases ha : a < 2 ^ 24
    · rw [ulpExp_small _ a ha, pow_zero, Nat.div_one]
      exact ⟨ha, fun h2 => absurd ha (by omega)⟩
    · have h2 : a / 2 < 2 ^ (24 + fuel) := by
        have : 2 ^ (24 + (fuel + 1)) = 2 * 2 ^ (24 + fuel) := by ring
        omega
      obtain ⟨i1, i2⟩ := ih (a / 2) h2
      have hd : a / 2 ^ (1 + ulpExp fuel (a / 2)) = a / 2 / 2 ^ ulpExp fuel (a / 2) := by
        rw [pow_add, pow_one, Nat.div_div_eq_div_mul]
      rw [ulpExp_large fuel a ha, hd]
      refine ⟨i1, fun _ => ?_⟩
      by_cases hb : 2 ^ 24 ≤ a / 2
      · exact i2 hb
      · rw [ulpExp_small fuel (a / 2) (by omega)]
        simp only [pow_zero, Nat.div_one]
        omega

/-- A binary32 value of size at least `2^23 * 2^k` is a multiple of `2^k`. -/
theorem isFloat32_multiple (x : ℚ) (hx : isFloat32 x) (k : Nat)
    (h : (2 : ℚ) ^ 23 * 2 ^ k ≤ x) : ∃ j : Int, x = (j : ℚ) * 2 ^ k := by
  obtain ⟨m, e, hm, rfl⟩ := hx
  have hpos : (0 : ℚ) < 2 ^ e := zpow_pos (by norm_num) e
  have hk : (0 : ℚ) < 2 ^ k := by positivity
  have hm2 : (m : ℚ) < 2 ^ 24 := by
    have : m < 2 ^ 24 := lt_of_le_of_lt (le_abs_self m) hm
    exact_mod_cast this
  have hke : (k : ℤ) ≤ e := by
    by_contra hlt
    have he : e ≤ (k : ℤ) - 1 := by omega
    have h1 : (2 : ℚ) ^ e ≤ 2 ^ ((k : ℤ) - 1) := zpow_le_zpow_right₀ (by norm_num) he
    have h2 : (2 : ℚ) ^ ((k : ℤ) - 1) = 2 ^ k / 2 := by
      rw [zpow_sub_one₀ (by norm_num), zpow_natCast]
      rfl
    rw [h2] at h1
    have h3 : (m : ℚ) * 2 ^ e < 2 ^ 24 * (2 ^ k / 2) := by
      by_cases hm0 : (m : ℚ) ≤ 0
      · have : (m : ℚ) * 2 ^ e ≤ 0 := mul_nonpos_of_nonpos_of_nonneg hm0 hpos.le
        have : (0 : ℚ) < 2 ^ 24 * (2 ^ k / 2) := by positivity
        linarith
      · push_neg at hm0
        calc (m : ℚ) * 2 ^ e ≤ (m : ℚ) * (2 ^ k / 2) := by
              exact mul_le_mul_of_nonneg_left h1 hm0.le
          _ < 2 ^ 24 * (2 ^ k / 2) := by
              exact mul_lt_mul_of_pos_right hm2 (by positivity)
    have h4 : (2 : ℚ) ^ 24 * (2 ^ k / 2) = 2 ^ 23 * 2 ^ k := by ring
    linarith
  refine ⟨m * 2 ^ (e - k).toNat, ?_⟩
  have he : e = ((e - k).toNat : ℤ) + (k : ℤ) := by
    rw [Int.toNat_of_nonneg (by omega)]
    ring
  push_cast
  rw [mul_assoc, ← zpow_natCast (2 : ℚ) (e - (k : ℤ)).toNat, ← zpow_natCast (2 : ℚ) k,
    ← zpow_add₀ (by norm_num), ← he]

/-- The shape of `roundNat a`: with `u` the unit in the last place, `q` the quotient and
`r` the remainder of `a` by `u`, it is `q * u`, or `(q + 1) * u` with `r ≠ 0`; and
`2^23 ≤ q` as soon as `r ≠ 0`. -/
theorem roundNat_shape (a : Nat) :
    ∃ k q r : Nat, a = q * 2 ^ k + r ∧ r < 2 ^ k ∧ (r ≠ 0 → 2 ^ 23 ≤ q) ∧
      (roundNat a = q * 2 ^ k ∨ (roundNat a = (q + 1) * 2 ^ k ∧ r ≠ 0)) := by
  have hfuel : a < 2 ^ (24 + a) :=
    lt_of_lt_of_le (Nat.lt_two_pow a) (Nat.pow_le_pow_right (by norm_num) (by omega))
  obtain ⟨_, hq⟩ := ulpExp_spec a a hfuel
  have hu : 0 < 2 ^ ulpExp a a := by positivity
  refine ⟨ulpExp a a, a / 2 ^ ulpExp a a, a % 2 ^ ulpExp a a, ?_, Nat.mod_lt _ hu, ?_, ?_⟩
  · have := Nat.div_add_mod a (2 ^ ulpExp a a)
    rw [Nat.mul_comm] at this
    exact this.symm
  · intro hr
    apply hq
    by_contra hlt
    rw [ulpExp_small a a (by omega)] at hr
    exact hr (by simp [Nat.mod_one])
  · unfold roundNat
    simp only
    split
    · exact Or.inl rfl
    · rename_i hc
      refine Or.inr ⟨rfl, ?_⟩
      intro hr
      apply hc
      left
      rw [hr]
      simp

theorem roundNat_up (a : Nat) (x : ℚ) (hx : isFloat32 x) (h : x < (roundNat a : ℚ)) :
    x < (a : ℚ) := by
  obtain ⟨k, q, r, ha, hr, hq, hc⟩ := roundNat_shape a
  have hk : (0 : ℚ) < 2 ^ k := by positivity
  have haq : (a : ℚ) = (q : ℚ) * 2 ^ k + (r : ℚ) := by
    rw [ha]
    push_cast
    ring
  by_contra hge
  push_neg at hge
  rcases hc with hc | ⟨hc, hr0⟩
  · rw [hc] at h
    push_cast at h
    have : (0 : ℚ) ≤ (r : ℚ) := Nat.cast_nonneg r
    linarith
  · rw [hc] at h
    push_cast at h
    have hq2 : (2 : ℚ) ^ 23 ≤ (q : ℚ) := by exact_mod_cast hq hr0
    have hr1 : (0 : ℚ) < (r : ℚ) := by exact_mod_cast Nat.pos_of_ne_zero hr0
    have hx2 : (2 : ℚ) ^ 23 * 2 ^ k ≤ x := by
      have := mul_le_mul_of_nonneg_right hq2 hk.le
      linarith
    obtain ⟨j, rfl⟩ := isFloat32_multiple x hx k hx2
    have hj : (j : ℚ) < (q : ℚ) + 1 := lt_of_mul_lt_mul_right h hk.le
    have hj2 : j ≤ (q : ℤ) := by
      have : j < (q : ℤ) + 1 := by exact_mod_cast hj
      omega
    have hj3 : (j : ℚ) ≤ (q : ℚ) := by exact_mod_cast hj2
    have := mul_le_mul_of_nonneg_right hj3 hk.le
    linarith

theorem roundNat_down (a : Nat) (y : ℚ) (hy : isFloat32 y) (h : (roundNat a : ℚ) < y) :
    (a : ℚ) < y := by
  obtain ⟨k, q, r, ha, hr, hq, hc⟩ := roundNat_shape a
  have hk : (0 : ℚ) < 2 ^ k := by positivity
  have haq : (a : ℚ) = (q : ℚ) * 2 ^ k + (r : ℚ) := by
    rw [ha]
    push_cast
    ring
  have hru : (r : ℚ) < 2 ^ k := by exact_mod_cast hr
  by_contra hge
  push_neg at hge
  rcases hc with hc | ⟨hc, _⟩
  · rw [hc] at h
    push_cast at h
    by_cases hr0 : r = 0
    · rw [hr0] at haq
      simp only [Nat.cast_zero, add_zero] at haq
      linarith
    · have hq2 : (2 : ℚ) ^ 23 ≤ (q : ℚ) := by exact_mod_cast hq hr0
      have hy2 : (2 : ℚ) ^ 23 * 2 ^ k ≤ y := by
        have := mul_le_mul_of_nonneg_right hq2 hk.le
        linarith
      obtain ⟨j, rfl⟩ := isFloat32_multiple y hy k hy2
      have hj : (q : ℚ) < (j : ℚ) := lt_of_mul_lt_mul_right h hk.le
      have hj1 : (j : ℚ) * 2 ^ k < ((q : ℚ) + 1) * 2 ^ k := by linarith
      have hj2 : (j : ℚ) < (q : ℚ) + 1 := lt_of_mul_lt_mul_right hj1 hk.le
      have h1 : (q : ℤ) < j := by exact_mod_cast hj
      have h2 : j < (q : ℤ) + 1 := by exact_mod_cast hj2
      omega
  · rw [hc] at h
    push_cast at h
    linarith

theorem isFloat32_neg (x : ℚ) (hx : isFloat32 x) : isFloat32 (-x) := by
  obtain ⟨m, e, hm, rfl⟩ := hx
  exact ⟨-m, e, by simpa using hm, by push_cast; ring⟩

/-- A binary32 value below the conversion of an integer is below the integer. -/
theorem intToFloat32_nearest (n : Int) (x : ℚ) (hx : isFloat32 x)
    (h : x < intToFloat32 n) : x < (n : ℚ) := by
  unfold intToFloat32 roundInt at h
  by_cases hn : 0 ≤ n
  · rw [if_pos hn] at h
    push_cast at h
    have h2 := roundNat_up n.toNat x hx h
    have h3 : ((n.toNat : ℤ) : ℚ) = (n : ℚ) := by rw [Int.toNat_of_nonneg hn]
    rw [← h3]
    exact_mod_cast h2
  · rw [if_neg hn] at h
    push_cast at h
    have h1 : ((roundNat (-n).toNat : ℕ) : ℚ) < -x := by linarith
    have h2 := roundNat_down (-n).toNat (-x) (isFloat32_neg x hx) h1
    have h3 : (((-n).toNat : ℤ) : ℚ) = -(n : ℚ) := by
      rw [Int.toNat_of_nonneg (by omega)]
      push_cast
      rfl
    have h4 : (((-n).toNat : ℕ) : ℚ) = -(n : ℚ) := by
      rw [← h3]
      norm_cast
    rw [h4] at h2
    linarith

theorem intToFloat32_wide : intToFloat32 16777217 = 16777216 := by
  have h : roundInt 16777217 = 16777216 := by decide
  rw [intToFloat32, h]
  norm_num

theorem intToFloat32_200 : intToFloat32 200 = 200 := by
  have h : roundInt 200 = 200 := by decide
  rw [intToFloat32, h]
  norm_num

/-- A library instance with the conversion of `int` to binary32 and the binary32 values
as `float` values; its primitive returns no triangle and its cast of `double` is exact. -/
def Lib.binary32 : Lib where
  toFloat := fun d => d
  intToFloat := intToFloat32
  isFloat := isFloat32
  getTriangleList := fun _ => []
  findLmkIdFromPixel := Frame.findLmkIdFromPixel
  intToFloat_nearest := intToFloat32_nearest
  getTriangleList_isFloat := fun _ _ h => absurd h (List.not_mem_nil _)

/-! ## Properties of the specification -/

/-- C1 (row stability): in a state reached from the constructor by any calls of
`updateMap3D` and `updateMesh3D`, let `lmk_id` be mapped to row `r`.  After any further
calls `lmk_id` is still mapped to `r`, and every landmark id mapped to `r` is `lmk_id`. -/
theorem row_stability (L : Lib) (before later : List Call) (lmk_id : LandmarkId) (r : Int)
    (h : LandmarkIdToMapPointId.find (run L Mesher.new before).lmkIdToMapPointId_ lmk_id =
      some r) :
    LandmarkIdToMapPointId.find
        (run L (run L Mesher.new before) later).lmkIdToMapPointId_ lmk_id = some r ∧
      ∀ other : LandmarkId,
        LandmarkIdToMapPointId.find
            (run L (run L Mesher.new before) later).lmkIdToMapPointId_ other = some r →
          other = lmk_id := by
  have h1 := run_find_mono L _ later lmk_id r h
  have hc := run_consistent L _ later (run_consistent L _ before new_consistent)
  exact ⟨h1, fun other h2 => Consistent.find_inj _ hc other lmk_id r h2 h1⟩

/-- C1 at a concrete run: landmark 9 gets row 1 and keeps it. -/
theorem row_stability_witness :
    LandmarkIdToMapPointId.find
        (run Lib.sample Mesher.new Call.sampleBefore).lmkIdToMapPointId_ 9 = some 1 ∧
      (LandmarkIdToMapPointId.find
          (run Lib.sample (run Lib.sample Mesher.new Call.sampleBefore)
            Call.sampleLater).lmkIdToMapPointId_ 9 = some 1 ∧
        ∀ other : LandmarkId,
          LandmarkIdToMapPointId.find
              (run Lib.sample (run Lib.sample Mesher.new Call.sampleBefore)
                Call.sampleLater).lmkIdToMapPointId_ other = some 1 →
            other = 9) :=
  ⟨by decide, row_stability Lib.sample Call.sampleBefore Call.sampleLater 9 1 (by decide)⟩

/-- C2, as stated, fails: on the frame with three keypoints and two landmarks
`updateMesh3D` throws the dimension error, but the point table, the map and the counter
of a fresh `Mesher` have been changed by the batch. -/
theorem updateMesh3D_not_atomic :
    Frame.malformed.keypoints_.length ≠ Frame.malformed.landmarks_.length ∧
      (Mesher.new.updateMesh3D Lib.sample [(1, ⟨0, 0, 1⟩)] Frame.malformed).2 =
        Except.error wrongDimension ∧
      (Mesher.new.updateMesh3D Lib.sample [(1, ⟨0, 0, 1⟩)] Frame.malformed).1.mapPoints3d_ =
        [⟨0, 0, 1⟩] ∧
      (Mesher.new.updateMesh3D Lib.sample [(1, ⟨0, 0, 1⟩)]
        Frame.malformed).1.lmkIdToMapPointId_ = [(1, 0)] ∧
      (Mesher.new.updateMesh3D Lib.sample [(1, ⟨0, 0, 1⟩)] Frame.malformed).1.points3D_count_ =
        1 ∧
      (Mesher.new.updateMesh3D Lib.sample [(1, ⟨0, 0, 1⟩)] Frame.malformed).1 ≠ Mesher.new :=
  ⟨by decide, rfl, by decide, by decide, by decide, by decide⟩

/-- C2, amended: on a frame whose keypoints and landmarks have different lengths
`updateMesh3D` throws the dimension error and leaves `polygonsMesh_` as it was; the object
it leaves is the one `updateMap3D` produces from the batch, so the point table, the map
and the counter are unchanged when the batch is empty. -/
theorem updateMesh3D_malformed_frame (L : Lib) (m : Mesher)
    (pointsWithId : List (LandmarkId × Point3)) (frame : Frame)
    (h : frame.keypoints_.length ≠ frame.landmarks_.length) :
    (m.updateMesh3D L pointsWithId frame).2 = Except.error wrongDimension ∧
      (m.updateMesh3D L pointsWithId frame).1 = m.updateMap3D L pointsWithId ∧
      (m.updateMesh3D L pointsWithId frame).1.polygonsMesh_ = m.polygonsMesh_ ∧
      (pointsWithId = [] → (m.updateMesh3D L pointsWithId frame).1 = m) := by
  have he := createMesh3d_of_ne L (m.updateMap3D L pointsWithId) frame h
  have h1 : m.updateMesh3D L pointsWithId frame =
      (m.updateMap3D L pointsWithId, Except.error wrongDimension) := by
    simp only [Mesher.updateMesh3D, he]
  rw [h1]
  refine ⟨rfl, rfl, updateMap3D_polygonsMesh L m pointsWithId, ?_⟩
  intro hp
  rw [hp]
  rfl

/-- The amended C2 on the malformed frame, from a state with three rows and the mesh
`[3, 0, 1, 2]`. -/
theorem updateMesh3D_malformed_frame_witness :
    Frame.malformed.keypoints_.length ≠ Frame.malformed.landmarks_.length ∧
      ((Mesher.sampleMeshed.updateMesh3D Lib.sample sampleBatch Frame.malformed).2 =
          Except.error wrongDimension ∧
        (Mesher.sampleMeshed.updateMesh3D Lib.sample sampleBatch Frame.malformed).1 =
          Mesher.sampleMeshed.updateMap3D Lib.sample sampleBatch ∧
        (Mesher.sampleMeshed.updateMesh3D Lib.sample sampleBatch Frame.malformed).1.polygonsMesh_ =
          Mesher.sampleMeshed.polygonsMesh_ ∧
        (sampleBatch = [] →
          (Mesher.sampleMeshed.updateMesh3D Lib.sample sampleBatch Frame.malformed).1 =
            Mesher.sampleMeshed)) :=
  ⟨by decide,
    updateMesh3D_malformed_frame Lib.sample Mesher.sampleMeshed sampleBatch Frame.malformed
      (by decide)⟩

/-- C3 (bijection between keys and rows): in every state reached from the constructor by
calls of `updateMap3D` and `updateMesh3D`, with `N` the number of rows of `mapPoints3d_`:
the counter is `N`, the map has `N` keys and they are pairwise distinct, every key is
mapped to a row `r` with `0 ≤ r < N`, two keys mapped to the same row are equal, and
every row `0 ≤ r < N` is the row of some key. -/
theorem landmarkMap_bijection (L : Lib) (calls : List Call) :
    (run L Mesher.new calls).points3D_count_ =
        ((run L Mesher.new calls).mapPoints3d_.length : Int) ∧
      (LandmarkIdToMapPointId.keys (run L Mesher.new calls).lmkIdToMapPointId_).length =
        (run L Mesher.new calls).mapPoints3d_.length ∧
      (LandmarkIdToMapPointId.keys (run L Mesher.new calls).lmkIdToMapPointId_).Nodup ∧
      (∀ (id : LandmarkId) (r : Int),
        LandmarkIdToMapPointId.find (run L Mesher.new calls).lmkIdToMapPointId_ id = some r →
          0 ≤ r ∧ r < ((run L Mesher.new calls).mapPoints3d_.length : Int)) ∧
      (∀ (id1 id2 : LandmarkId) (r : Int),
        LandmarkIdToMapPointId.find (run L Mesher.new calls).lmkIdToMapPointId_ id1 = some r →
          LandmarkIdToMapPointId.find (run L Mesher.new calls).lmkIdToMapPointId_ id2 =
            some r →
          id1 = id2) ∧
      (∀ r : Int, 0 ≤ r → r < ((run L Mesher.new calls).mapPoints3d_.length : Int) →
        ∃ id, LandmarkIdToMapPointId.find (run L Mesher.new calls).lmkIdToMapPointId_ id =
          some r) := by
  have hc := run_consistent L Mesher.new calls new_consistent
  refine ⟨hc.count, ?_, hc.keys_nodup, Consistent.row_range _ hc, Consistent.find_inj _ hc,
    Consistent.row_surj _ hc⟩
  simp only [LandmarkIdToMapPointId.keys, List.length_map]
  exact Consistent.length_map _ hc

/-- C4 (sequential row assignment): let `m` be a reachable state with `N` rows and
`pointsWithId` a batch.  The new landmarks of the batch (its ids that are not keys of the
map, each once, in the order of their first occurrence) are pairwise distinct, form a
sublist of the ids of the batch and are exactly the ids of the batch unknown to `m`;
after `updateMap3D` the `i`-th of them is mapped to row `N + i`, and the table and the
counter have grown by exactly their number.  From the constructor, a batch with pairwise
distinct ids gives the `i`-th id of the batch the row `i`, and as many rows as the batch
has observations. -/
theorem sequential_row_assignment (L : Lib) (m : Mesher)
    (pointsWithId : List (LandmarkId × Point3)) (hm : Reachable L m) :
    (newLandmarks m.lmkIdToMapPointId_ pointsWithId).Nodup ∧
      (newLandmarks m.lmkIdToMapPointId_ pointsWithId).Sublist (pointsWithId.map Prod.fst) ∧
      (∀ id : LandmarkId, id ∈ newLandmarks m.lmkIdToMapPointId_ pointsWithId ↔
        id ∈ pointsWithId.map Prod.fst ∧
          LandmarkIdToMapPointId.find m.lmkIdToMapPointId_ id = none) ∧
      (∀ (i : Nat) (hi : i < (newLandmarks m.lmkIdToMapPointId_ pointsWithId).length),
        LandmarkIdToMapPointId.find (m.updateMap3D L pointsWithId).lmkIdToMapPointId_
            (newLandmarks m.lmkIdToMapPointId_ pointsWithId)[i] =
          some ((m.mapPoints3d_.length : Int) + (i : Int))) ∧
      (m.updateMap3D L pointsWithId).mapPoints3d_.length =
        m.mapPoints3d_.length + (newLandmarks m.lmkIdToMapPointId_ pointsWithId).length ∧
      (m.updateMap3D L pointsWithId).points3D_count_ =
        m.points3D_count_ + ((newLandmarks m.lmkIdToMapPointId_ pointsWithId).length : Int) ∧
      (∀ batch : List (LandmarkId × Point3), (batch.map Prod.fst).Nodup →
        (Mesher.new.updateMap3D L batch).mapPoints3d_.length = batch.length ∧
          ∀ (i : Nat) (hi : i < batch.length),
            LandmarkIdToMapPointId.find (Mesher.new.updateMap3D L batch).lmkIdToMapPointId_
              batch[i].1 = some (i : Int)) := by
  have hc := Reachable.consistent L m hm
  obtain ⟨h1, h2, h3⟩ := updateMap3D_assign L m pointsWithId
  have hnd : (newLandmarks m.lmkIdToMapPointId_ pointsWithId).Nodup :=
    firstOccurrences_nodup _
  refine ⟨hnd, ?_, mem_newLandmarks _ _, ?_, h3, h2, ?_⟩
  · exact (firstOccurrences_sublist _).trans ((List.filter_sublist _))
  · intro i hi
    have hnone : LandmarkIdToMapPointId.find m.lmkIdToMapPointId_
        (newLandmarks m.lmkIdToMapPointId_ pointsWithId)[i] = none :=
      ((mem_newLandmarks _ _ _).mp (List.getElem_mem hi)).2
    rw [h1, find_append, hnone]
    simp only
    rw [find_assignRows _ _ hnd i hi, hc.count]
  · intro batch hb
    obtain ⟨b1, _, b3⟩ := updateMap3D_assign L Mesher.new batch
    have hnew : newLandmarks Mesher.new.lmkIdToMapPointId_ batch = batch.map Prod.fst :=
      newLandmarks_nil_map batch hb
    rw [hnew] at b1 b3
    constructor
    · rw [b3]
      simp [Mesher.new]
    · intro i hi
      have hi2 : i < (batch.map Prod.fst).length := by simpa using hi
      have hf := find_assignRows Mesher.new.points3D_count_ (batch.map Prod.fst) hb i hi2
      rw [b1]
      simp only [Mesher.new, List.nil_append, List.getElem_map, zero_add] at hf ⊢
      exact hf

/-- C4 at a concrete state with the rows of 7 and 9: the batch `sampleBatch` has the new
landmarks 5 and 3, which get the rows 2 and 3. -/
theorem sequential_row_assignment_witness :
    Reachable Lib.sample (run Lib.sample Mesher.new Call.sampleBefore) ∧
      newLandmarks (run Lib.sample Mesher.new Call.sampleBefore).lmkIdToMapPointId_
          sampleBatch = [5, 3] ∧
      ((run Lib.sample Mesher.new Call.sampleBefore).updateMap3D Lib.sample
          sampleBatch).mapPoints3d_.length =
        (run Lib.sample Mesher.new Call.sampleBefore).mapPoints3d_.length +
          (newLandmarks (run Lib.sample Mesher.new Call.sampleBefore).lmkIdToMapPointId_
            sampleBatch).length :=
  ⟨⟨Call.sampleBefore, rfl⟩, by decide,
    (sequential_row_assignment Lib.sample (run Lib.sample Mesher.new Call.sampleBefore)
      sampleBatch ⟨Call.sampleBefore, rfl⟩).2.2.2.2.1⟩

/-- C5 (most recent estimate wins): let `m` be a reachable state and `p` the point of
the last observation of `id` in the batch `pointsWithId`.  After `updateMap3D` the id is
mapped to a row, and that row of `mapPoints3d_` holds exactly the point
`(float(p.x), float(p.y), float(p.z))`, whatever the row held before and whatever earlier
observations of the batch wrote. -/
theorem most_recent_estimate_wins (L : Lib) (m : Mesher)
    (pointsWithId : List (LandmarkId × Point3)) (id : LandmarkId) (p : Point3)
    (hm : Reachable L m) (h : lastObservation pointsWithId id = some p) :
    ∃ r : Int,
      LandmarkIdToMapPointId.find (m.updateMap3D L pointsWithId).lmkIdToMapPointId_ id =
          some r ∧
        0 ≤ r ∧
        (m.updateMap3D L pointsWithId).mapPoints3d_[r.toNat]? =
          some { x := L.toFloat p.x, y := L.toFloat p.y, z := L.toFloat p.z } := by
  obtain ⟨r, h1, h2, h3⟩ :=
    updateMap3D_last L m pointsWithId (Reachable.consistent L m hm) id p h
  exact ⟨r, h1, h2, h3⟩

/-- C5 at a concrete state with the rows of 7 and 9 and a cast that rounds down to
quarters: in `fineBatch` the new landmark 5 is observed first at `(1, 1, 1)` and last at
`(7/8, 5/3, -9/8)`, and its row 2 holds `(3/4, 3/2, -5/4)` afterwards. -/
theorem most_recent_estimate_wins_witness :
    (Reachable Lib.coarse (run Lib.coarse Mesher.new Call.sampleBefore) ∧
        lastObservation fineBatch 5 = some ⟨7 / 8, 5 / 3, -9 / 8⟩) ∧
      (LandmarkIdToMapPointId.find
          ((run Lib.coarse Mesher.new Call.sampleBefore).updateMap3D Lib.coarse
            fineBatch).lmkIdToMapPointId_ 5 = some 2 ∧
        ((run Lib.coarse Mesher.new Call.sampleBefore).updateMap3D Lib.coarse
          fineBatch).mapPoints3d_[2]? = some ⟨3 / 4, 3 / 2, -5 / 4⟩) ∧
      ∃ r : Int,
        LandmarkIdToMapPointId.find
            ((run Lib.coarse Mesher.new Call.sampleBefore).updateMap3D Lib.coarse
              fineBatch).lmkIdToMapPointId_ 5 = some r ∧
          0 ≤ r ∧
          ((run Lib.coarse Mesher.new Call.sampleBefore).updateMap3D Lib.coarse
              fineBatch).mapPoints3d_[r.toNat]? =
            some
              { x := Lib.coarse.toFloat (7 / 8)
                y := Lib.coarse.toFloat (5 / 3)
                z := Lib.coarse.toFloat (-9 / 8) } :=
  ⟨⟨⟨Call.sampleBefore, rfl⟩, by with_unfolding_all decide⟩,
    ⟨by with_unfolding_all decide, by with_unfolding_all decide⟩,
    most_recent_estimate_wins Lib.coarse (run Lib.coarse Mesher.new Call.sampleBefore)
      fineBatch 5 ⟨7 / 8, 5 / 3, -9 / 8⟩ ⟨Call.sampleBefore, rfl⟩
      (by with_unfolding_all decide)⟩

/-- C6 (append-only mesh): whenever `updateMesh3D` returns normally, the former content of
`polygonsMesh_` is a prefix of the new content; in particular the length does not
decrease. -/
theorem append_only_mesh (L : Lib) (m : Mesher) (pointsWithId : List (LandmarkId × Point3))
    (frame : Frame) (h : (m.updateMesh3D L pointsWithId frame).2 = Except.ok ()) :
    m.polygonsMesh_ <+: (m.updateMesh3D L pointsWithId frame).1.polygonsMesh_ ∧
      m.polygonsMesh_.length ≤ (m.updateMesh3D L pointsWithId frame).1.polygonsMesh_.length := by
  have hp : m.polygonsMesh_ <+: (m.updateMesh3D L pointsWithId frame).1.polygonsMesh_ := by
    cases hc : (m.updateMap3D L pointsWithId).createMesh3d_MapPointId L frame with
    | error e => simp [Mesher.updateMesh3D, hc] at h
    | ok polygon =>
      simp only [Mesher.updateMesh3D, hc, updateMap3D_polygonsMesh]
      exact List.prefix_append _ _
  exact ⟨hp, hp.length_le⟩

/-- C6 at a concrete call: the mesh `[3, 0, 1, 2]` of the first call is kept in front of
the two triangles that the second call appends. -/
theorem append_only_mesh_witness :
    (Mesher.sampleMeshed.updateMesh3D Lib.sample [(4, ⟨1, 1, 1⟩)] Frame.sample).2 =
        Except.ok () ∧
      (Mesher.sampleMeshed.polygonsMesh_ <+:
          (Mesher.sampleMeshed.updateMesh3D Lib.sample [(4, ⟨1, 1, 1⟩)]
            Frame.sample).1.polygonsMesh_ ∧
        Mesher.sampleMeshed.polygonsMesh_.length ≤
          (Mesher.sampleMeshed.updateMesh3D Lib.sample [(4, ⟨1, 1, 1⟩)]
            Frame.sample).1.polygonsMesh_.length) :=
  ⟨by with_unfolding_all rfl,
    append_only_mesh Lib.sample Mesher.sampleMeshed [(4, ⟨1, 1, 1⟩)] Frame.sample
      (by with_unfolding_all rfl)⟩

/-- C7 (mesh well-formedness): in every reachable state `polygonsMesh_` is a
concatenation of records `3, i, j, k` with `0 ≤ i, j, k <` the number of rows of
`mapPoints3d_`, so its length is a multiple of 4; and every polygon list that
`createMesh3d_MapPointId` returns in such a state has the same form, with indices that
are rows of the table at the time of the call. -/
theorem mesh_well_formed (L : Lib) (m : Mesher) (hm : Reachable L m) :
    WellFormedPolygons m.mapPoints3d_.length m.polygonsMesh_ ∧
      m.polygonsMesh_.length % 4 = 0 ∧
      ∀ (frame : Frame) (polygon : List Int),
        m.createMesh3d_MapPointId L frame = Except.ok polygon →
          WellFormedPolygons m.mapPoints3d_.length polygon := by
  have hc := Reachable.consistent L m hm
  obtain ⟨calls, rfl⟩ := hm
  have hw := run_wf L Mesher.new calls new_consistent (WellFormedPolygons.nil _)
  exact ⟨hw, WellFormedPolygons.length _ _ hw, fun frame polygon h =>
    createMesh3d_wf L _ hc frame polygon h⟩

/-- C7 at a concrete run with seven rows and the mesh `[3, 3, 4, 5, 3, 4, 5, 6]`. -/
theorem mesh_well_formed_witness :
    (Reachable Lib.sample (run Lib.sample Mesher.new (Call.sampleBefore ++ Call.sampleLater)) ∧
        (run Lib.sample Mesher.new (Call.sampleBefore ++ Call.sampleLater)).polygonsMesh_ =
          [3, 3, 4, 5, 3, 4, 5, 6] ∧
        (run Lib.sample Mesher.new
          (Call.sampleBefore ++ Call.sampleLater)).mapPoints3d_.length = 7) ∧
      WellFormedPolygons
        (run Lib.sample Mesher.new (Call.sampleBefore ++ Call.sampleLater)).mapPoints3d_.length
        (run Lib.sample Mesher.new (Call.sampleBefore ++ Call.sampleLater)).polygonsMesh_ :=
  ⟨⟨⟨Call.sampleBefore ++ Call.sampleLater, rfl⟩, by with_unfolding_all decide,
      by with_unfolding_all decide⟩,
    (mesh_well_formed Lib.sample
      (run Lib.sample Mesher.new (Call.sampleBefore ++ Call.sampleLater))
      ⟨Call.sampleBefore ++ Call.sampleLater, rfl⟩).1⟩

/-- C8 (lift filter correctness): for every state and every frame with as many keypoints
as landmarks, `CreateMesh2D` returns a triangle list and `createMesh3d_MapPointId` returns
the concatenation, in the order of that list, of the records `[3, row(id1), row(id2),
row(id3)]` of exactly the triangles whose three recovered landmark ids are all keys of
`lmkIdToMapPointId_`; the other triangles contribute nothing.  With an empty map the
result is empty. -/
theorem lift_filter_correctness (L : Lib) (m : Mesher) (frame : Frame)
    (h : frame.keypoints_.length = frame.landmarks_.length) :
    ∃ triangulation2D : List Vec6f,
      CreateMesh2D L frame = Except.ok triangulation2D ∧
        m.createMesh3d_MapPointId L frame =
          Except.ok
            ((triangulation2D.filter (liftable L m.lmkIdToMapPointId_ frame)).flatMap
              (record L m.lmkIdToMapPointId_ frame)) ∧
        (m.lmkIdToMapPointId_ = [] → m.createMesh3d_MapPointId L frame = Except.ok []) := by
  obtain ⟨tris, h1, h2⟩ := createMesh3d_of_eq L m frame h
  refine ⟨tris, h1, h2, fun he => ?_⟩
  rw [h2, he]
  have hnone : tris.filter (liftable L [] frame) = [] := by
    rw [List.filter_eq_nil_iff]
    intro t _
    simp [liftable, LandmarkIdToMapPointId.keys]
  rw [hnone]
  rfl

/-- C8 on the frame of the scenario: a fresh `Mesher` lifts nothing, and with the rows of
the landmarks 1 to 4 both triangles are lifted. -/
theorem lift_filter_correctness_witness :
    (Frame.sample.keypoints_.length = Frame.sample.landmarks_.length ∧
        Mesher.new.createMesh3d_MapPointId Lib.sample Frame.sample = Except.ok [] ∧
        Mesher.sample.createMesh3d_MapPointId Lib.sample Frame.sample =
          Except.ok [3, 0, 1, 2, 3, 1, 2, 3]) ∧
      ∃ triangulation2D : List Vec6f,
        CreateMesh2D Lib.sample Frame.sample = Except.ok triangulation2D ∧
          Mesher.sample.createMesh3d_MapPointId Lib.sample Frame.sample =
            Except.ok
              ((triangulation2D.filter
                  (liftable Lib.sample Mesher.sample.lmkIdToMapPointId_ Frame.sample)).flatMap
                (record Lib.sample Mesher.sample.lmkIdToMapPointId_ Frame.sample)) ∧
          (Mesher.sample.lmkIdToMapPointId_ = [] →
            Mesher.sample.createMesh3d_MapPointId Lib.sample Frame.sample = Except.ok []) :=
  ⟨⟨by decide, by with_unfolding_all rfl, by with_unfolding_all rfl⟩,
    lift_filter_correctness Lib.sample Mesher.sample Frame.sample (by decide)⟩

/-- C9 (rectangle containment): for every frame with as many keypoints as landmarks and
every triangle list of the Delaunay primitive, `CreateMesh2D` returns a list all of whose
triangles have their three vertices `(x, y)` with `0 ≤ x < width` and `0 ≤ y < height` of
the image of the frame. -/
theorem rectangle_containment (L : Lib) (frame : Frame)
    (h : frame.keypoints_.length = frame.landmarks_.length) :
    ∃ triangulation2D : List Vec6f,
      CreateMesh2D L frame = Except.ok triangulation2D ∧
        ∀ t ∈ triangulation2D,
          (0 ≤ t.v0 ∧ t.v0 < (frame.img_.width : ℚ) ∧
              0 ≤ t.v1 ∧ t.v1 < (frame.img_.height : ℚ)) ∧
            (0 ≤ t.v2 ∧ t.v2 < (frame.img_.width : ℚ) ∧
              0 ≤ t.v3 ∧ t.v3 < (frame.img_.height : ℚ)) ∧
            (0 ≤ t.v4 ∧ t.v4 < (frame.img_.width : ℚ) ∧
              0 ≤ t.v5 ∧ t.v5 < (frame.img_.height : ℚ)) := by
  obtain ⟨subdiv, _, h2⟩ := CreateMesh2D_of_eq L frame h
  refine ⟨_, h2, fun t ht => ?_⟩
  have hin := (List.mem_filter.mp ht).2
  obtain ⟨f0, f1, f2, f3, f4, f5⟩ :=
    L.getTriangleList_isFloat subdiv t (List.mem_filter.mp ht).1
  simp only [CreateMesh2D.inside, CreateMesh2D.rect, Rect2f.contains, Bool.and_eq_true,
    decide_eq_true_eq, zero_add] at hin
  obtain ⟨⟨⟨⟨⟨a1, a2⟩, a3⟩, a4⟩, ⟨⟨b1, b2⟩, b3⟩, b4⟩, ⟨⟨c1, c2⟩, c3⟩, c4⟩ := hin
  exact ⟨⟨a1, L.intToFloat_nearest _ _ f0 a2, a3, L.intToFloat_nearest _ _ f1 a4⟩,
    ⟨b1, L.intToFloat_nearest _ _ f2 b2, b3, L.intToFloat_nearest _ _ f3 b4⟩,
    c1, L.intToFloat_nearest _ _ f4 c2, c3, L.intToFloat_nearest _ _ f5 c4⟩

/-- C9 on the frame of the scenario: the primitive of `Lib.sample` also returns the
triangle `(-1, -1, 0, 0, 1, 1)`, which is not among the triangles of `CreateMesh2D`. -/
theorem rectangle_containment_witness :
    (Frame.sample.keypoints_.length = Frame.sample.landmarks_.length ∧
        CreateMesh2D Lib.sample Frame.sample =
          Except.ok [⟨10, 10, 100, 10, 10, 100⟩, ⟨100, 10, 10, 100, 100, 100⟩]) ∧
      ∃ triangulation2D : List Vec6f,
        CreateMesh2D Lib.sample Frame.sample = Except.ok triangulation2D ∧
          ∀ t ∈ triangulation2D,
            (0 ≤ t.v0 ∧ t.v0 < (Frame.sample.img_.width : ℚ) ∧
                0 ≤ t.v1 ∧ t.v1 < (Frame.sample.img_.height : ℚ)) ∧
              (0 ≤ t.v2 ∧ t.v2 < (Frame.sample.img_.width : ℚ) ∧
                0 ≤ t.v3 ∧ t.v3 < (Frame.sample.img_.height : ℚ)) ∧
              (0 ≤ t.v4 ∧ t.v4 < (Frame.sample.img_.width : ℚ) ∧
                0 ≤ t.v5 ∧ t.v5 < (Frame.sample.img_.height : ℚ)) :=
  ⟨⟨by decide, by with_unfolding_all rfl⟩,
    rectangle_containment Lib.sample Frame.sample (by decide)⟩

/-- C10 (dimension precondition): on a frame whose keypoints and landmarks have different
lengths the sanity check of `CreateMesh2D` throws the dimension error, so that no
subdivision with inserted points is built, and `CreateMesh2D` and
`createMesh3d_MapPointId` end with that error; on a frame whose two lengths are equal
both return a value.  Both functions only read the object: they return a result and no
new state. -/
theorem dimension_precondition (L : Lib) (m : Mesher) (frame : Frame) :
    (frame.keypoints_.length ≠ frame.landmarks_.length →
        CreateMesh2D.subdiv L frame = Except.error wrongDimension ∧
          CreateMesh2D L frame = Except.error wrongDimension ∧
          m.createMesh3d_MapPointId L frame = Except.error wrongDimension) ∧
      (frame.keypoints_.length = frame.landmarks_.length →
        (∃ triangulation2D, CreateMesh2D L frame = Except.ok triangulation2D) ∧
          ∃ polygon, m.createMesh3d_MapPointId L frame = Except.ok polygon) := by
  constructor
  · intro h
    exact ⟨subdiv_of_ne L frame h, CreateMesh2D_of_ne L frame h,
      createMesh3d_of_ne L m frame h⟩
  · intro h
    obtain ⟨tris, h1, h2⟩ := createMesh3d_of_eq L m frame h
    exact ⟨⟨tris, h1⟩, ⟨_, h2⟩⟩

/-- C10 on the malformed frame (three keypoints, two landmarks) and on the frame of the
scenario. -/
theorem dimension_precondition_witness :
    (Frame.malformed.keypoints_.length ≠ Frame.malformed.landmarks_.length ∧
        Frame.sample.keypoints_.length = Frame.sample.landmarks_.length) ∧
      (CreateMesh2D.subdiv Lib.sample Frame.malformed = Except.error wrongDimension ∧
        CreateMesh2D Lib.sample Frame.malformed = Except.error wrongDimension ∧
        Mesher.sample.createMesh3d_MapPointId Lib.sample Frame.malformed =
          Except.error wrongDimension) ∧
      ((∃ triangulation2D, CreateMesh2D Lib.sample Frame.sample = Except.ok triangulation2D) ∧
        ∃ polygon, Mesher.sample.createMesh3d_MapPointId Lib.sample Frame.sample =
          Except.ok polygon) :=
  ⟨⟨by decide, by decide⟩,
    (dimension_precondition Lib.sample Mesher.sample Frame.malformed).1 (by decide),
    (dimension_precondition Lib.sample Mesher.sample Frame.sample).2 (by decide)⟩

/-- C11, as stated, fails: after the reachable call `updateMap3D(sentinelBatch)`, whose
batch has an observation with landmark id `-1`, the sentinel is a key of the map.  On the
frame `Frame.three`, with a primitive that returns a vertex half a pixel off, the only
triangle of `CreateMesh2D` has a first vertex that matches no keypoint, its lookup yields
`-1`, and `createMesh3d_MapPointId` still returns a record for it.  The same happens on
the frame `Frame.shadowed` with a primitive that returns the inserted points, where the
first match of the pixel `(10, 10)` is an untracked keypoint. -/
theorem unresolved_lookup_lifted :
    (CreateMesh2D Lib.drift Frame.three = Except.ok [⟨21 / 2, 10, 100, 10, 10, 100⟩] ∧
        Lib.drift.findLmkIdFromPixel Frame.three ⟨21 / 2, 10⟩ = -1 ∧
        unresolved Lib.drift Frame.three ⟨21 / 2, 10, 100, 10, 10, 100⟩ = true ∧
        (run Lib.drift Mesher.new
            [Call.updateMap3D sentinelBatch]).createMesh3d_MapPointId Lib.drift Frame.three =
          Except.ok [3, 0, 1, 2]) ∧
      (CreateMesh2D Lib.sample Frame.shadowed = Except.ok [⟨10, 10, 100, 10, 10, 100⟩] ∧
        Lib.sample.findLmkIdFromPixel Frame.shadowed ⟨10, 10⟩ = -1 ∧
        unresolved Lib.sample Frame.shadowed ⟨10, 10, 100, 10, 10, 100⟩ = true ∧
        (run Lib.sample Mesher.new
            [Call.updateMap3D sentinelBatch]).createMesh3d_MapPointId Lib.sample
            Frame.shadowed =
          Except.ok [3, 0, 1, 2]) :=
  ⟨⟨by with_unfolding_all rfl, by with_unfolding_all decide, by with_unfolding_all decide,
      by with_unfolding_all rfl⟩,
    by with_unfolding_all rfl, by with_unfolding_all decide, by with_unfolding_all decide,
    by with_unfolding_all rfl⟩

/-- C11, amended: in every state reached from the constructor by calls of `updateMap3D`
and `updateMesh3D` none of whose batches has an observation with landmark id `-1`, the
loop body of `createMesh3d_MapPointId` appends nothing for a 2D triangle with a vertex
whose reverse lookup yields `-1`; so for a frame with as many keypoints as landmarks the
result is the one computed from the 2D triangles without such a vertex. -/
theorem unresolved_lookup_dropped (L : Lib) (calls : List Call) (frame : Frame)
    (hcalls : ∀ c ∈ calls, ∀ o ∈ c.pointsWithId, o.1 ≠ -1) :
    (∀ (t : Vec6f) (polygon : List Int), unresolved L frame t = true →
        createMesh3d_MapPointId.body L (run L Mesher.new calls).lmkIdToMapPointId_ frame
          polygon t = polygon) ∧
      (frame.keypoints_.length = frame.landmarks_.length →
        ∃ triangulation2D : List Vec6f,
          CreateMesh2D L frame = Except.ok triangulation2D ∧
            (run L Mesher.new calls).createMesh3d_MapPointId L frame =
              Except.ok
                (((triangulation2D.filter (fun t => !unresolved L frame t)).filter
                    (liftable L (run L Mesher.new calls).lmkIdToMapPointId_ frame)).flatMap
                  (record L (run L Mesher.new calls).lmkIdToMapPointId_ frame))) := by
  have hkey : (-1 : LandmarkId) ∉
      LandmarkIdToMapPointId.keys (run L Mesher.new calls).lmkIdToMapPointId_ := by
    intro hk
    rcases mem_keys_run L Mesher.new calls (-1) hk with h | ⟨c, hc, h⟩
    · simp [Mesher.new, LandmarkIdToMapPointId.keys] at h
    · obtain ⟨o, ho, he⟩ := List.mem_map.mp h
      exact hcalls c hc o ho he
  constructor
  · intro t polygon ht
    rw [body_eq, liftable_of_unresolved L _ frame t hkey ht]
    simp
  · intro hf
    obtain ⟨tris, h1, h2⟩ := createMesh3d_of_eq L (run L Mesher.new calls) frame hf
    refine ⟨tris, h1, ?_⟩
    rw [h2, List.filter_filter]
    congr 2
    apply List.filter_congr
    intro t _
    cases hu : unresolved L frame t with
    | false => simp
    | true => simp [liftable_of_unresolved L _ frame t hkey hu]

/-- The amended C11 with the batch of the landmarks 2 and 3: the triangle with the
unresolved first vertex is dropped and the result is empty. -/
theorem unresolved_lookup_dropped_witness :
    ((∀ c ∈ [Call.updateMap3D [(2, ⟨1, 0, 1⟩), (3, ⟨0, 1, 1⟩)]],
          ∀ o ∈ c.pointsWithId, o.1 ≠ -1) ∧
        unresolved Lib.drift Frame.three ⟨21 / 2, 10, 100, 10, 10, 100⟩ = true ∧
        Frame.three.keypoints_.length = Frame.three.landmarks_.length) ∧
      createMesh3d_MapPointId.body Lib.drift
          (run Lib.drift Mesher.new
            [Call.updateMap3D [(2, ⟨1, 0, 1⟩), (3, ⟨0, 1, 1⟩)]]).lmkIdToMapPointId_
          Frame.three [3, 7, 8, 9] ⟨21 / 2, 10, 100, 10, 10, 100⟩ = [3, 7, 8, 9] ∧
      ∃ triangulation2D : List Vec6f,
        CreateMesh2D Lib.drift Frame.three = Except.ok triangulation2D ∧
          (run Lib.drift Mesher.new
              [Call.updateMap3D [(2, ⟨1, 0, 1⟩),
                (3, ⟨0, 1, 1⟩)]]).createMesh3d_MapPointId Lib.drift Frame.three =
            Except.ok
              (((triangulation2D.filter (fun t => !unresolved Lib.drift Frame.three t)).filter
                  (liftable Lib.drift
                    (run Lib.drift Mesher.new
                      [Call.updateMap3D [(2, ⟨1, 0, 1⟩), (3, ⟨0, 1, 1⟩)]]).lmkIdToMapPointId_
                    Frame.three)).flatMap
                (record Lib.drift
                  (run Lib.drift Mesher.new
                    [Call.updateMap3D [(2, ⟨1, 0, 1⟩), (3, ⟨0, 1, 1⟩)]]).lmkIdToMapPointId_
                  Frame.three)) :=
  ⟨⟨by decide, by with_unfolding_all decide, by decide⟩,
    (unresolved_lookup_dropped Lib.drift [Call.updateMap3D [(2, ⟨1, 0, 1⟩), (3, ⟨0, 1, 1⟩)]]
      Frame.three (by decide)).1 _ _ (by with_unfolding_all decide),
    (unresolved_lookup_dropped Lib.drift [Call.updateMap3D [(2, ⟨1, 0, 1⟩), (3, ⟨0, 1, 1⟩)]]
      Frame.three (by decide)).2 (by decide)⟩

/-- C13 (`spinViz` returning is not a failure): for every outcome of the data-source spin
and of `shutdownWhenFinished`, the exit status of the driver is the same for any two
returns of `spinViz()`, whatever value describes when and why it returned; and when the
spin returned `true` and `shutdownWhenFinished` returned, the status is `EXIT_SUCCESS`. -/
theorem spinViz_return_not_failure {V P : Type} (viz1 viz2 : V) (spin : Outcome Bool)
    (shutdown : Outcome P) :
    main (Outcome.returned viz1) spin shutdown = main (Outcome.returned viz2) spin shutdown ∧
      ∀ p : P,
        main (Outcome.returned viz1) (Outcome.returned true) (Outcome.returned p) =
          some ExitStatus.EXIT_SUCCESS :=
  ⟨rfl, fun _ => rfl⟩

/-- C15 (`updateMesh3D` is update, then lift, then append): for every state, batch and
frame with as many keypoints as landmarks, `updateMesh3D` returns normally; the point
table, the map and the counter it leaves are those of `updateMap3D` on the batch, and
`polygonsMesh_` is the former mesh followed by the result of `createMesh3d_MapPointId`
evaluated in the state after `updateMap3D`. -/
theorem updateMesh3D_update_lift_append (L : Lib) (m : Mesher)
    (pointsWithId : List (LandmarkId × Point3)) (frame : Frame)
    (h : frame.keypoints_.length = frame.landmarks_.length) :
    ∃ polygon : List Int,
      (m.updateMap3D L pointsWithId).createMesh3d_MapPointId L frame = Except.ok polygon ∧
        (m.updateMesh3D L pointsWithId frame).2 = Except.ok () ∧
        (m.updateMesh3D L pointsWithId frame).1.mapPoints3d_ =
          (m.updateMap3D L pointsWithId).mapPoints3d_ ∧
        (m.updateMesh3D L pointsWithId frame).1.lmkIdToMapPointId_ =
          (m.updateMap3D L pointsWithId).lmkIdToMapPointId_ ∧
        (m.updateMesh3D L pointsWithId frame).1.points3D_count_ =
          (m.updateMap3D L pointsWithId).points3D_count_ ∧
        (m.updateMesh3D L pointsWithId frame).1.polygonsMesh_ = m.polygonsMesh_ ++ polygon := by
  obtain ⟨tris, _, h2⟩ := createMesh3d_of_eq L (m.updateMap3D L pointsWithId) frame h
  refine ⟨_, h2, ?_⟩
  simp only [Mesher.updateMesh3D, h2, updateMap3D_polygonsMesh, and_self]

/-- C15 on the frame of the scenario: the landmarks 1, 2 and 3 are unknown to a fresh
`Mesher`, are first observed by the batch of the call, and the triangle `[3, 0, 1, 2]` of
their rows is appended by the same call. -/
theorem updateMesh3D_update_lift_append_witness :
    (Frame.sample.keypoints_.length = Frame.sample.landmarks_.length ∧
        Mesher.new.lmkIdToMapPointId_ = [] ∧
        (Mesher.new.updateMesh3D Lib.sample [(1, ⟨0, 0, 1⟩), (2, ⟨1, 0, 1⟩), (3, ⟨0, 1, 1⟩)]
          Frame.sample).1.polygonsMesh_ = [3, 0, 1, 2]) ∧
      ∃ polygon : List Int,
        (Mesher.new.updateMap3D Lib.sample
            [(1, ⟨0, 0, 1⟩), (2, ⟨1, 0, 1⟩), (3, ⟨0, 1, 1⟩)]).createMesh3d_MapPointId
            Lib.sample Frame.sample = Except.ok polygon ∧
          (Mesher.new.updateMesh3D Lib.sample [(1, ⟨0, 0, 1⟩), (2, ⟨1, 0, 1⟩), (3, ⟨0, 1, 1⟩)]
            Frame.sample).2 = Except.ok () ∧
          (Mesher.new.updateMesh3D Lib.sample [(1, ⟨0, 0, 1⟩), (2, ⟨1, 0, 1⟩), (3, ⟨0, 1, 1⟩)]
            Frame.sample).1.mapPoints3d_ =
            (Mesher.new.updateMap3D Lib.sample
              [(1, ⟨0, 0, 1⟩), (2, ⟨1, 0, 1⟩), (3, ⟨0, 1, 1⟩)]).mapPoints3d_ ∧
          (Mesher.new.updateMesh3D Lib.sample [(1, ⟨0, 0, 1⟩), (2, ⟨1, 0, 1⟩), (3, ⟨0, 1, 1⟩)]
            Frame.sample).1.lmkIdToMapPointId_ =
            (Mesher.new.updateMap3D Lib.sample
              [(1, ⟨0, 0, 1⟩), (2, ⟨1, 0, 1⟩), (3, ⟨0, 1, 1⟩)]).lmkIdToMapPointId_ ∧
          (Mesher.new.updateMesh3D Lib.sample [(1, ⟨0, 0, 1⟩), (2, ⟨1, 0, 1⟩), (3, ⟨0, 1, 1⟩)]
            Frame.sample).1.points3D_count_ =
            (Mesher.new.updateMap3D Lib.sample
              [(1, ⟨0, 0, 1⟩), (2, ⟨1, 0, 1⟩), (3, ⟨0, 1, 1⟩)]).points3D_count_ ∧
          (Mesher.new.updateMesh3D Lib.sample [(1, ⟨0, 0, 1⟩), (2, ⟨1, 0, 1⟩), (3, ⟨0, 1, 1⟩)]
            Frame.sample).1.polygonsMesh_ = Mesher.new.polygonsMesh_ ++ polygon :=
  ⟨⟨by decide, rfl, by with_unfolding_all decide⟩,
    updateMesh3D_update_lift_append Lib.sample Mesher.new
      [(1, ⟨0, 0, 1⟩), (2, ⟨1, 0, 1⟩), (3, ⟨0, 1, 1⟩)] Frame.sample (by decide)⟩

/-- C16, as stated, fails: in the frame `Frame.wide` the image is 16777217 pixels wide and
the only keypoint has landmark id 1 and the pixel `(16777216, 10)`, which lies in the
image rectangle; the conversion of the width to binary32 gives 16777216, the keypoint
fails the containment test and no point is handed to the primitive. -/
theorem keypoint_in_image_not_inserted :
    Frame.wide.keypoints_.length = Frame.wide.landmarks_.length ∧
      (Frame.wide.keypoints_.zip Frame.wide.landmarks_ = [(⟨16777216, 10⟩, 1)] ∧
        (0 : ℚ) ≤ 16777216 ∧ (16777216 : ℚ) < (Frame.wide.img_.width : ℚ) ∧
        (0 : ℚ) ≤ 10 ∧ (10 : ℚ) < (Frame.wide.img_.height : ℚ)) ∧
      Lib.binary32.intToFloat Frame.wide.img_.width = 16777216 ∧
      CreateMesh2D.subdiv Lib.binary32 Frame.wide =
        Except.ok { rect := ⟨0, 0, 16777216, 200⟩, points := [] } := by
  refine ⟨by decide, ⟨rfl, by norm_num, by norm_num [Frame.wide], by norm_num,
    by norm_num [Frame.wide]⟩, intToFloat32_wide, ?_⟩
  rw [subdiv_eq Lib.binary32 Frame.wide (by decide)]
  have hw : Lib.binary32.intToFloat 16777217 = 16777216 := intToFloat32_wide
  have hh : Lib.binary32.intToFloat 200 = 200 := intToFloat32_200
  simp [validKeypoints, CreateMesh2D.rect, Frame.wide, Rect2f.contains, hw, hh]

/-- C16, amended: for every frame with as many keypoints as landmarks, the subdivision
handed to the primitive has the rectangle `(0, 0, float(width), float(height))`, with the
sides of the image converted to `float`, and as inserted points exactly the keypoints
whose landmark id is not `-1` and whose pixel `(x, y)` has `0 ≤ x < float(width)` and
`0 ≤ y < float(height)`, in keypoint order; the result is the triangle list of the
primitive restricted, in its order, to the triangles whose three vertices satisfy these
bounds.  When the conversion of the two sides is exact, the bounds are those of the image
rectangle `0 ≤ x < width`, `0 ≤ y < height`. -/
theorem CreateMesh2D_two_sided_filter (L : Lib) (frame : Frame)
    (h : frame.keypoints_.length = frame.landmarks_.length) :
    ∃ subdiv : Subdiv2D,
      CreateMesh2D.subdiv L frame = Except.ok subdiv ∧
        subdiv.rect =
          ⟨0, 0, L.intToFloat frame.img_.width, L.intToFloat frame.img_.height⟩ ∧
        subdiv.points =
          ((frame.keypoints_.zip frame.landmarks_).filter
            (fun kl =>
              decide (kl.2 ≠ -1) &&
                (decide (0 ≤ kl.1.x) && decide (kl.1.x < L.intToFloat frame.img_.width) &&
                  decide (0 ≤ kl.1.y) &&
                  decide (kl.1.y < L.intToFloat frame.img_.height)))).map Prod.fst ∧
        CreateMesh2D L frame =
          Except.ok ((L.getTriangleList subdiv).filter
            (fun t =>
              (decide (0 ≤ t.v0) && decide (t.v0 < L.intToFloat frame.img_.width) &&
                  decide (0 ≤ t.v1) && decide (t.v1 < L.intToFloat frame.img_.height)) &&
                (decide (0 ≤ t.v2) && decide (t.v2 < L.intToFloat frame.img_.width) &&
                  decide (0 ≤ t.v3) && decide (t.v3 < L.intToFloat frame.img_.height)) &&
                (decide (0 ≤ t.v4) && decide (t.v4 < L.intToFloat frame.img_.width) &&
                  decide (0 ≤ t.v5) && decide (t.v5 < L.intToFloat frame.img_.height)))) ∧
        (L.intToFloat frame.img_.width = (frame.img_.width : ℚ) →
          L.intToFloat frame.img_.height = (frame.img_.height : ℚ) →
          subdiv.points =
              ((frame.keypoints_.zip frame.landmarks_).filter
                (fun kl =>
                  decide (kl.2 ≠ -1) &&
                    (decide (0 ≤ kl.1.x) && decide (kl.1.x < (frame.img_.width : ℚ)) &&
                      decide (0 ≤ kl.1.y) &&
                      decide (kl.1.y < (frame.img_.height : ℚ))))).map Prod.fst ∧
            CreateMesh2D L frame =
              Except.ok ((L.getTriangleList subdiv).filter
                (fun t =>
                  (decide (0 ≤ t.v0) && decide (t.v0 < (frame.img_.width : ℚ)) &&
                      decide (0 ≤ t.v1) && decide (t.v1 < (frame.img_.height : ℚ))) &&
                    (decide (0 ≤ t.v2) && decide (t.v2 < (frame.img_.width : ℚ)) &&
                      decide (0 ≤ t.v3) && decide (t.v3 < (frame.img_.height : ℚ))) &&
                    (decide (0 ≤ t.v4) && decide (t.v4 < (frame.img_.width : ℚ)) &&
                      decide (0 ≤ t.v5) && decide (t.v5 < (frame.img_.height : ℚ)))))) := by
  obtain ⟨subdiv, h1, h2⟩ := CreateMesh2D_of_eq L frame h
  have h3 := subdiv_eq L frame h
  rw [h1] at h3
  injection h3 with h3
  subst h3
  have hpts : validKeypoints L frame =
      ((frame.keypoints_.zip frame.landmarks_).filter
        (fun kl =>
          decide (kl.2 ≠ -1) &&
            (decide (0 ≤ kl.1.x) && decide (kl.1.x < L.intToFloat frame.img_.width) &&
              decide (0 ≤ kl.1.y) &&
              decide (kl.1.y < L.intToFloat frame.img_.height)))).map Prod.fst := by
    simp only [validKeypoints, CreateMesh2D.rect, Rect2f.contains, zero_add]
  have hres : CreateMesh2D L frame =
      Except.ok ((L.getTriangleList
          { rect := CreateMesh2D.rect L frame, points := validKeypoints L frame }).filter
        (fun t =>
          (decide (0 ≤ t.v0) && decide (t.v0 < L.intToFloat frame.img_.width) &&
              decide (0 ≤ t.v1) && decide (t.v1 < L.intToFloat frame.img_.height)) &&
            (decide (0 ≤ t.v2) && decide (t.v2 < L.intToFloat frame.img_.width) &&
              decide (0 ≤ t.v3) && decide (t.v3 < L.intToFloat frame.img_.height)) &&
            (decide (0 ≤ t.v4) && decide (t.v4 < L.intToFloat frame.img_.width) &&
              decide (0 ≤ t.v5) && decide (t.v5 < L.intToFloat frame.img_.height)))) := by
    rw [h2]
    have hf : CreateMesh2D.inside (CreateMesh2D.rect L frame) = fun t =>
        (decide (0 ≤ t.v0) && decide (t.v0 < L.intToFloat frame.img_.width) &&
            decide (0 ≤ t.v1) && decide (t.v1 < L.intToFloat frame.img_.height)) &&
          (decide (0 ≤ t.v2) && decide (t.v2 < L.intToFloat frame.img_.width) &&
            decide (0 ≤ t.v3) && decide (t.v3 < L.intToFloat frame.img_.height)) &&
          (decide (0 ≤ t.v4) && decide (t.v4 < L.intToFloat frame.img_.width) &&
            decide (0 ≤ t.v5) && decide (t.v5 < L.intToFloat frame.img_.height)) := by
      funext t
      simp only [CreateMesh2D.inside, CreateMesh2D.rect, Rect2f.contains, zero_add]
    rw [hf]
  refine ⟨_, h1, rfl, hpts, hres, fun hw hh => ?_⟩
  rw [← hw, ← hh]
  exact ⟨hpts, hres⟩

/-- The amended C16 on the frame `Frame.degenerate`, where the conversion of the sides is
exact: of its four keypoints the two on the pixel `(10, 10)` are handed to the primitive,
and the triangle `(-1, -1, 0, 0, 1, 1)` of the primitive is not returned. -/
theorem CreateMesh2D_two_sided_filter_witness :
    (Frame.degenerate.keypoints_.length = Frame.degenerate.landmarks_.length ∧
        CreateMesh2D.subdiv Lib.sample Frame.degenerate =
          Except.ok { rect := ⟨0, 0, 200, 200⟩, points := [⟨10, 10⟩, ⟨10, 10⟩] } ∧
        Lib.sample.getTriangleList { rect := ⟨0, 0, 200, 200⟩, points := [⟨10, 10⟩, ⟨10, 10⟩] } =
          [⟨-1, -1, 0, 0, 1, 1⟩] ∧
        CreateMesh2D Lib.sample Frame.degenerate = Except.ok []) ∧
      ∃ subdiv : Subdiv2D,
        CreateMesh2D.subdiv Lib.sample Frame.degenerate = Except.ok subdiv ∧
          subdiv.points =
            ((Frame.degenerate.keypoints_.zip Frame.degenerate.landmarks_).filter
              (fun kl =>
                decide (kl.2 ≠ -1) &&
                  (decide (0 ≤ kl.1.x) &&
                    decide (kl.1.x < Lib.sample.intToFloat Frame.degenerate.img_.width) &&
                    decide (0 ≤ kl.1.y) &&
                    decide
                      (kl.1.y < Lib.sample.intToFloat Frame.degenerate.img_.height)))).map
              Prod.fst :=
  ⟨⟨by decide, by with_unfolding_all rfl, by with_unfolding_all decide,
      by with_unfolding_all rfl⟩,
    (CreateMesh2D_two_sided_filter Lib.sample Frame.degenerate (by decide)).imp
      (fun _ hs => ⟨hs.1, hs.2.2.1⟩)⟩

/-- C18 (idempotence of `updateMap3D`): in every reachable state and for every batch, also
one that repeats a landmark id with different points, a second `updateMap3D` of the same
batch leaves the object as the first one left it: the same point table, the same map and
the same counter. -/
theorem updateMap3D_idempotent (L : Lib) (m : Mesher)
    (pointsWithId : List (LandmarkId × Point3)) (hm : Reachable L m) :
    (m.updateMap3D L pointsWithId).updateMap3D L pointsWithId = m.updateMap3D L pointsWithId ∧
      ((m.updateMap3D L pointsWithId).updateMap3D L pointsWithId).mapPoints3d_ =
        (m.updateMap3D L pointsWithId).mapPoints3d_ ∧
      ((m.updateMap3D L pointsWithId).updateMap3D L pointsWithId).lmkIdToMapPointId_ =
        (m.updateMap3D L pointsWithId).lmkIdToMapPointId_ ∧
      ((m.updateMap3D L pointsWithId).updateMap3D L pointsWithId).points3D_count_ =
        (m.updateMap3D L pointsWithId).points3D_count_ := by
  have h := updateMap3D_twice L m pointsWithId (Reachable.consistent L m hm)
  exact ⟨h, by rw [h], by rw [h], by rw [h]⟩

/-- C18 at a concrete state with the rows of 7 and 9 and the batch `sampleBatch`, which
observes the landmark 5 twice with different points. -/
theorem updateMap3D_idempotent_witness :
    (Reachable Lib.sample (run Lib.sample Mesher.new Call.sampleBefore) ∧
        ((run Lib.sample Mesher.new Call.sampleBefore).updateMap3D Lib.sample
          sampleBatch).mapPoints3d_ =
          [⟨0, 0, 1⟩, ⟨2, 2, 2⟩, ⟨3, 3, 3⟩, ⟨4, 4, 4⟩]) ∧
      (((run Lib.sample Mesher.new Call.sampleBefore).updateMap3D Lib.sample
            sampleBatch).updateMap3D Lib.sample sampleBatch =
          (run Lib.sample Mesher.new Call.sampleBefore).updateMap3D Lib.sample sampleBatch ∧
        (((run Lib.sample Mesher.new Call.sampleBefore).updateMap3D Lib.sample
            sampleBatch).updateMap3D Lib.sample sampleBatch).mapPoints3d_ =
          ((run Lib.sample Mesher.new Call.sampleBefore).updateMap3D Lib.sample
            sampleBatch).mapPoints3d_ ∧
        (((run Lib.sample Mesher.new Call.sampleBefore).updateMap3D Lib.sample
            sampleBatch).updateMap3D Lib.sample sampleBatch).lmkIdToMapPointId_ =
          ((run Lib.sample Mesher.new Call.sampleBefore).updateMap3D Lib.sample
            sampleBatch).lmkIdToMapPointId_ ∧
        (((run Lib.sample Mesher.new Call.sampleBefore).updateMap3D Lib.sample
            sampleBatch).updateMap3D Lib.sample sampleBatch).points3D_count_ =
          ((run Lib.sample Mesher.new Call.sampleBefore).updateMap3D Lib.sample
            sampleBatch).points3D_count_) :=
  ⟨⟨⟨Call.sampleBefore, rfl⟩, by decide⟩,
    updateMap3D_idempotent Lib.sample (run Lib.sample Mesher.new Call.sampleBefore)
      sampleBatch ⟨Call.sampleBefore, rfl⟩⟩

/-- C19 (frame of `updateMap3D`): in every reachable state and for every batch,
`updateMap3D` leaves `polygonsMesh_` as it is, every landmark id that was mapped to a row
is still mapped to that row, and the row of a landmark id that does not occur in the
batch holds the same coordinates as before. -/
theorem updateMap3D_frame (L : Lib) (m : Mesher) (pointsWithId : List (LandmarkId × Point3))
    (hm : Reachable L m) :
    (m.updateMap3D L pointsWithId).polygonsMesh_ = m.polygonsMesh_ ∧
      (∀ (id : LandmarkId) (r : Int),
        LandmarkIdToMapPointId.find m.lmkIdToMapPointId_ id = some r →
          LandmarkIdToMapPointId.find (m.updateMap3D L pointsWithId).lmkIdToMapPointId_ id =
            some r) ∧
      (∀ (id : LandmarkId) (r : Int),
        LandmarkIdToMapPointId.find m.lmkIdToMapPointId_ id = some r →
          id ∉ pointsWithId.map Prod.fst →
            (m.updateMap3D L pointsWithId).mapPoints3d_[r.toNat]? =
              m.mapPoints3d_[r.toNat]?) :=
  ⟨updateMap3D_polygonsMesh L m pointsWithId,
    fun id r h => updateMap3D_find_mono L m pointsWithId id r h,
    fun id r h hid =>
      updateMap3D_other_row L m pointsWithId (Reachable.consistent L m hm) id r h hid⟩

/-- C19 at a concrete state with a mesh and the rows of 7, 9, 11 and 1 to 4: the batch
`sampleBatch` does not observe the landmark 7, whose row 0 keeps the point `(0, 0, 1)`. -/
theorem updateMap3D_frame_witness :
    (Reachable Lib.sample (run Lib.sample Mesher.new (Call.sampleBefore ++ Call.sampleLater)) ∧
        LandmarkIdToMapPointId.find
          (run Lib.sample Mesher.new
            (Call.sampleBefore ++ Call.sampleLater)).lmkIdToMapPointId_ 7 = some 0 ∧
        (7 : LandmarkId) ∉ sampleBatch.map Prod.fst) ∧
      ((run Lib.sample Mesher.new (Call.sampleBefore ++ Call.sampleLater)).updateMap3D
          Lib.sample sampleBatch).polygonsMesh_ =
        (run Lib.sample Mesher.new (Call.sampleBefore ++ Call.sampleLater)).polygonsMesh_ ∧
      LandmarkIdToMapPointId.find
          ((run Lib.sample Mesher.new (Call.sampleBefore ++ Call.sampleLater)).updateMap3D
            Lib.sample sampleBatch).lmkIdToMapPointId_ 7 = some 0 ∧
      ((run Lib.sample Mesher.new (Call.sampleBefore ++ Call.sampleLater)).updateMap3D
          Lib.sample sampleBatch).mapPoints3d_[(0 : Int).toNat]? =
        (run Lib.sample Mesher.new
          (Call.sampleBefore ++ Call.sampleLater)).mapPoints3d_[(0 : Int).toNat]? :=
  ⟨⟨⟨Call.sampleBefore ++ Call.sampleLater, rfl⟩, by with_unfolding_all decide, by decide⟩,
    (updateMap3D_frame Lib.sample
      (run Lib.sample Mesher.new (Call.sampleBefore ++ Call.sampleLater)) sampleBatch
      ⟨Call.sampleBefore ++ Call.sampleLater, rfl⟩).1,
    (updateMap3D_frame Lib.sample
      (run Lib.sample Mesher.new (Call.sampleBefore ++ Call.sampleLater)) sampleBatch
      ⟨Call.sampleBefore ++ Call.sampleLater, rfl⟩).2.1 7 0 (by with_unfolding_all decide),
    (updateMap3D_frame Lib.sample
      (run Lib.sample Mesher.new (Call.sampleBefore ++ Call.sampleLater)) sampleBatch
      ⟨Call.sampleBefore ++ Call.sampleLater, rfl⟩).2.2 7 0 (by with_unfolding_all decide)
      (by decide)⟩

/-- C20 (the lift is monotone in the map): for every frame with as many keypoints as
landmarks, every state `m` and the state `run L m calls` after any further calls (in
particular any further `updateMap3D` calls), `createMesh3d_MapPointId` returns in both
states the concatenation of the records of the lifted triangles, and the list of records
in `m` is a sublist of the list of records in the later state: every triangle lifted
before is still lifted, with the same row indices and in the same relative order. -/
theorem lift_monotone (L : Lib) (m : Mesher) (calls : List Call) (frame : Frame)
    (h : frame.keypoints_.length = frame.landmarks_.length) :
    ∃ triangulation2D : List Vec6f,
      CreateMesh2D L frame = Except.ok triangulation2D ∧
        m.createMesh3d_MapPointId L frame =
          Except.ok (liftedRecords L m.lmkIdToMapPointId_ frame triangulation2D).flatten ∧
        (run L m calls).createMesh3d_MapPointId L frame =
          Except.ok
            (liftedRecords L (run L m calls).lmkIdToMapPointId_ frame
              triangulation2D).flatten ∧
        (liftedRecords L m.lmkIdToMapPointId_ frame triangulation2D).Sublist
          (liftedRecords L (run L m calls).lmkIdToMapPointId_ frame triangulation2D) := by
  obtain ⟨tris, h1, h2⟩ := createMesh3d_of_eq L m frame h
  obtain ⟨tris2, h3, h4⟩ := createMesh3d_of_eq L (run L m calls) frame h
  rw [h1] at h3
  injection h3 with h3
  subst h3
  refine ⟨tris, h1, ?_, ?_, ?_⟩
  · rw [h2, List.flatMap_def]
    rfl
  · rw [h4, List.flatMap_def]
    rfl
  · exact liftedRecords_mono L _ _ frame tris (fun id r hr => run_find_mono L m calls id r hr)

/-- C20 on the frame of the scenario: with the rows of the landmarks 1 to 3 one triangle
is lifted, and after a further `updateMap3D` with the landmark 4 its record is followed
by the record of the second triangle. -/
theorem lift_monotone_witness :
    (Frame.sample.keypoints_.length = Frame.sample.landmarks_.length ∧
        Mesher.sampleMeshed.createMesh3d_MapPointId Lib.sample Frame.sample =
          Except.ok [3, 0, 1, 2] ∧
        (run Lib.sample Mesher.sampleMeshed
          [Call.updateMap3D [(4, ⟨1, 1, 1⟩)]]).createMesh3d_MapPointId Lib.sample
          Frame.sample = Except.ok [3, 0, 1, 2, 3, 1, 2, 3]) ∧
      ∃ triangulation2D : List Vec6f,
        CreateMesh2D Lib.sample Frame.sample = Except.ok triangulation2D ∧
          Mesher.sampleMeshed.createMesh3d_MapPointId Lib.sample Frame.sample =
            Except.ok
              (liftedRecords Lib.sample Mesher.sampleMeshed.lmkIdToMapPointId_ Frame.sample
                triangulation2D).flatten ∧
          (run Lib.sample Mesher.sampleMeshed
              [Call.updateMap3D [(4, ⟨1, 1, 1⟩)]]).createMesh3d_MapPointId Lib.sample
              Frame.sample =
            Except.ok
              (liftedRecords Lib.sample
                (run Lib.sample Mesher.sampleMeshed
                  [Call.updateMap3D [(4, ⟨1, 1, 1⟩)]]).lmkIdToMapPointId_ Frame.sample
                triangulation2D).flatten ∧
          (liftedRecords Lib.sample Mesher.sampleMeshed.lmkIdToMapPointId_ Frame.sample
              triangulation2D).Sublist
            (liftedRecords Lib.sample
              (run Lib.sample Mesher.sampleMeshed
                [Call.updateMap3D [(4, ⟨1, 1, 1⟩)]]).lmkIdToMapPointId_ Frame.sample
              triangulation2D) :=
  ⟨⟨by decide, by with_unfolding_all rfl, by with_unfolding_all rfl⟩,
    lift_monotone Lib.sample Mesher.sampleMeshed [Call.updateMap3D [(4, ⟨1, 1, 1⟩)]]
      Frame.sample (by decide)⟩

end VIO
